import Mathlib

/-
Verification of the adaptive marching-cubes polygonizer (version3.cpp).

The C++ program is shallowly embedded over exact rationals: `double` becomes
`ℚ`, the global C `rand()` stream becomes an explicit stream of naturals
bounded by `RAND_MAX`, and the OpenMP task tree is modelled by giving each
octree node (identified by its path of octant indices) its own stream, since
the allocation of global `rand()` draws to probe invocations is
scheduling-dependent.  `surface_to_triangles` takes an explicit fuel
parameter for its recursion depth; fuel-independence of the result is proved
where termination is claimed.
-/

namespace MC

set_option maxRecDepth 16384

/-- `Point3D` from the source: three real coordinates, embedded as `ℚ`. -/
structure Point where
  x : ℚ
  y : ℚ
  z : ℚ
deriving DecidableEq

/-- `Triangle` from the source: exactly three points. -/
structure Triangle where
  p1 : Point
  p2 : Point
  p3 : Point
deriving DecidableEq

/-- glibc `RAND_MAX`, the largest value returned by `rand()`. -/
def RAND_MAX : ℕ := 2147483647

/-- `get_random_point_3d` from the source, with the three `rand()` draws
`r1, r2, r3` made explicit arguments.  Each coordinate is
`min + rand() / (RAND_MAX / (max - min))`, exactly as written in the code. -/
def get_random_point_3d (r1 r2 r3 : ℕ) (xmin ymin zmin xmax ymax zmax : ℚ) : Point :=
  ⟨xmin + (r1 : ℚ) / ((RAND_MAX : ℚ) / (xmax - xmin)),
   ymin + (r2 : ℚ) / ((RAND_MAX : ℚ) / (ymax - ymin)),
   zmin + (r3 : ℚ) / ((RAND_MAX : ℚ) / (zmax - zmin))⟩

/-- The i-th sample point drawn by `cube_contains_surface`: it consumes the
stream values `3*i`, `3*i+1`, `3*i+2` (one `rand()` call per axis, in x,y,z
order, exactly the call order of the source loop). -/
def samplePoint (rng : ℕ → ℕ) (s e : Point) (i : ℕ) : Point :=
  get_random_point_3d (rng (3 * i)) (rng (3 * i + 1)) (rng (3 * i + 2))
    s.x s.y s.z e.x e.y e.z

/-- The scanning loop of `cube_contains_surface`: walks the sample list
tracking `has_positive` / `has_negative`, returning `true` as soon as both
are set, `false` when the list is exhausted. -/
def containsLoop (f : ℚ → ℚ → ℚ → ℚ) (hp hn : Bool) : List Point → Bool
  | [] => false
  | q :: rest =>
    let v := f q.x q.y q.z
    let hp2 := if 0 ≤ v then true else hp
    let hn2 := if 0 ≤ v then hn else true
    if hp2 && hn2 then true else containsLoop f hp2 hn2 rest

/-- `cube_contains_surface` from the source: builds the full list of 10000
random samples, then scans it with early exit. -/
def cube_contains_surface (f : ℚ → ℚ → ℚ → ℚ) (s e : Point) (rng : ℕ → ℕ) : Bool :=
  containsLoop f false false ((List.range 10000).map (samplePoint rng s e))

/-- `interpolate_3d` from the source: midpoint when `|f2 - f1| < 1e-9`,
otherwise the linear zero-crossing `p1 + t·(p2 - p1)` with
`t = (0 - f1)/(f2 - f1)`. -/
def interpolate_3d (p1 p2 : Point) (f1 f2 : ℚ) : Point :=
  if |f2 - f1| < 1 / 1000000000 then
    ⟨(p1.x + p2.x) / 2, (p1.y + p2.y) / 2, (p1.z + p2.z) / 2⟩
  else
    ⟨p1.x + ((0 - f1) / (f2 - f1)) * (p2.x - p1.x),
     p1.y + ((0 - f1) / (f2 - f1)) * (p2.y - p1.y),
     p1.z + ((0 - f1) / (f2 - f1)) * (p2.z - p1.z)⟩

/-- The `vertices[8]` array of `marching_cubes`, in source order. -/
def cubeVertex (s e : Point) : ℕ → Point
  | 0 => ⟨s.x, s.y, s.z⟩
  | 1 => ⟨e.x, s.y, s.z⟩
  | 2 => ⟨e.x, e.y, s.z⟩
  | 3 => ⟨s.x, e.y, s.z⟩
  | 4 => ⟨s.x, s.y, e.z⟩
  | 5 => ⟨e.x, s.y, e.z⟩
  | 6 => ⟨e.x, e.y, e.z⟩
  | 7 => ⟨s.x, e.y, e.z⟩
  | _ => ⟨0, 0, 0⟩

/-- The `values[8]` array of `marching_cubes`: the field at each corner. -/
def cubeValues (s e : Point) (f : ℚ → ℚ → ℚ → ℚ) (k : ℕ) : ℚ :=
  f (cubeVertex s e k).x (cubeVertex s e k).y (cubeVertex s e k).z

/-- One step of the `config` accumulation loop:
`if (values[i] < 0) config |= (1 << i)`. -/
def configStep (vals : ℕ → ℚ) (c i : ℕ) : ℕ :=
  if vals i < 0 then c ||| (1 <<< i) else c

/-- The `config` index: bit `i` set iff `values[i] < 0`. -/
def configOf (vals : ℕ → ℚ) : ℕ :=
  (List.range 8).foldl (configStep vals) 0
/-- The 256-entry `edgeTable` of the source: `config → 12-bit edge mask`. -/
def edgeTable : List ℕ :=
  [
        0x0  , 0x109, 0x203, 0x30a, 0x406, 0x50f, 0x605, 0x70c,
        0x80c, 0x905, 0xa0f, 0xb06, 0xc0a, 0xd03, 0xe09, 0xf00,
        0x190, 0x99 , 0x393, 0x29a, 0x596, 0x49f, 0x795, 0x69c,
        0x99c, 0x895, 0xb9f, 0xa96, 0xd9a, 0xc93, 0xf99, 0xe90,
        0x230, 0x339, 0x33 , 0x13a, 0x636, 0x73f, 0x435, 0x53c,
        0xa3c, 0xb35, 0x83f, 0x936, 0xe3a, 0xf33, 0xc39, 0xd30,
        0x3a0, 0x2a9, 0x1a3, 0xaa , 0x7a6, 0x6af, 0x5a5, 0x4ac,
        0xbac, 0xaa5, 0x9af, 0x8a6, 0xfaa, 0xea3, 0xda9, 0xca0,
        0x460, 0x569, 0x663, 0x76a, 0x66 , 0x16f, 0x265, 0x36c,
        0xc6c, 0xd65, 0xe6f, 0xf66, 0x86a, 0x963, 0xa69, 0xb60,
        0x5f0, 0x4f9, 0x7f3, 0x6fa, 0x1f6, 0xff , 0x3f5, 0x2fc,
        0xdfc, 0xcf5, 0xfff, 0xef6, 0x9fa, 0x8f3, 0xbf9, 0xaf0,
        0x650, 0x759, 0x453, 0x55a, 0x256, 0x35f, 0x55 , 0x15c,
        0xe5c, 0xf55, 0xc5f, 0xd56, 0xa5a, 0xb53, 0x859, 0x950,
        0x7c0, 0x6c9, 0x5c3, 0x4ca, 0x3c6, 0x2cf, 0x1c5, 0xcc ,
        0xfcc, 0xec5, 0xdcf, 0xcc6, 0xbca, 0xac3, 0x9c9, 0x8c0,
        0x8c0, 0x9c9, 0xac3, 0xbca, 0xcc6, 0xdcf, 0xec5, 0xfcc,
        0xcc , 0x1c5, 0x2cf, 0x3c6, 0x4ca, 0x5c3, 0x6c9, 0x7c0,
        0x950, 0x859, 0xb53, 0xa5a, 0xd56, 0xc5f, 0xf55, 0xe5c,
        0x15c, 0x55 , 0x35f, 0x256, 0x55a, 0x453, 0x759, 0x650,
        0xaf0, 0xbf9, 0x8f3, 0x9fa, 0xef6, 0xfff, 0xcf5, 0xdfc,
        0x2fc, 0x3f5, 0xff , 0x1f6, 0x6fa, 0x7f3, 0x4f9, 0x5f0,
        0xb60, 0xa69, 0x963, 0x86a, 0xf66, 0xe6f, 0xd65, 0xc6c,
        0x36c, 0x265, 0x16f, 0x66 , 0x76a, 0x663, 0x569, 0x460,
        0xca0, 0xda9, 0xea3, 0xfaa, 0x8a6, 0x9af, 0xaa5, 0xbac,
        0x4ac, 0x5a5, 0x6af, 0x7a6, 0xaa , 0x1a3, 0x2a9, 0x3a0,
        0xd30, 0xc39, 0xf33, 0xe3a, 0x936, 0x83f, 0xb35, 0xa3c,
        0x53c, 0x435, 0x73f, 0x636, 0x13a, 0x33 , 0x339, 0x230,
        0xe90, 0xf99, 0xc93, 0xd9a, 0xa96, 0xb9f, 0x895, 0x99c,
        0x69c, 0x795, 0x49f, 0x596, 0x29a, 0x393, 0x99 , 0x190,
        0xf00, 0xe09, 0xd03, 0xc0a, 0xb06, 0xa0f, 0x905, 0x80c,
        0x70c, 0x605, 0x50f, 0x406, 0x30a, 0x203, 0x109, 0x0   ]
/-- Rows 0 to 31 of the `triTable` literal. -/
def triTableChunk0 : List (List ℤ) :=
  [[-1, -1, -1, -1, -1, -1, -1, -1, -1, -1, -1, -1, -1, -1, -1, -1],
   [0, 8, 3, -1, -1, -1, -1, -1, -1, -1, -1, -1, -1, -1, -1, -1],
   [0, 1, 9, -1, -1, -1, -1, -1, -1, -1, -1, -1, -1, -1, -1, -1],
   [1, 8, 3, 9, 8, 1, -1, -1, -1, -1, -1, -1, -1, -1, -1, -1],
   [1, 2, 10, -1, -1, -1, -1, -1, -1, -1, -1, -1, -1, -1, -1, -1],
   [0, 8, 3, 1, 2, 10, -1, -1, -1, -1, -1, -1, -1, -1, -1, -1],
   [9, 2, 10, 0, 2, 9, -1, -1, -1, -1, -1, -1, -1, -1, -1, -1],
   [2, 8, 3, 2, 10, 8, 10, 9, 8, -1, -1, -1, -1, -1, -1, -1],
   [3, 11, 2, -1, -1, -1, -1, -1, -1, -1, -1, -1, -1, -1, -1, -1],
   [0, 11, 2, 8, 11, 0, -1, -1, -1, -1, -1, -1, -1, -1, -1, -1],
   [1, 9, 0, 2, 3, 11, -1, -1, -1, -1, -1, -1, -1, -1, -1, -1],
   [1, 11, 2, 1, 9, 11, 9, 8, 11, -1, -1, -1, -1, -1, -1, -1],
   [3, 10, 1, 11, 10, 3, -1, -1, -1, -1, -1, -1, -1, -1, -1, -1],
   [0, 10, 1, 0, 8, 10, 8, 11, 10, -1, -1, -1, -1, -1, -1, -1],
   [3, 9, 0, 3, 11, 9, 11, 10, 9, -1, -1, -1, -1, -1, -1, -1],
   [9, 8, 10, 10, 8, 11, -1, -1, -1, -1, -1, -1, -1, -1, -1, -1],
   [4, 7, 8, -1, -1, -1, -1, -1, -1, -1, -1, -1, -1, -1, -1, -1],
   [4, 3, 0, 7, 3, 4, -1, -1, -1, -1, -1, -1, -1, -1, -1, -1],
   [0, 1, 9, 8, 4, 7, -1, -1, -1, -1, -1, -1, -1, -1, -1, -1],
   [4, 1, 9, 4, 7, 1, 7, 3, 1, -1, -1, -1, -1, -1, -1, -1],
   [1, 2, 10, 8, 4, 7, -1, -1, -1, -1, -1, -1, -1, -1, -1, -1],
   [3, 4, 7, 3, 0, 4, 1, 2, 10, -1, -1, -1, -1, -1, -1, -1],
   [9, 2, 10, 9, 0, 2, 8, 4, 7, -1, -1, -1, -1, -1, -1, -1],
   [2, 10, 9, 2, 9, 7, 2, 7, 3, 7, 9, 4, -1, -1, -1, -1],
   [8, 4, 7, 3, 11, 2, -1, -1, -1, -1, -1, -1, -1, -1, -1, -1],
   [11, 4, 7, 11, 2, 4, 2, 0, 4, -1, -1, -1, -1, -1, -1, -1],
   [9, 0, 1, 8, 4, 7, 2, 3, 11, -1, -1, -1, -1, -1, -1, -1],
   [4, 7, 11, 9, 4, 11, 9, 11, 2, 9, 2, 1, -1, -1, -1, -1],
   [3, 10, 1, 3, 11, 10, 7, 8, 4, -1, -1, -1, -1, -1, -1, -1],
   [1, 11, 10, 1, 4, 11, 1, 0, 4, 7, 11, 4, -1, -1, -1, -1],
   [4, 7, 8, 9, 0, 11, 9, 11, 10, 11, 0, 3, -1, -1, -1, -1],
   [4, 7, 11, 4, 11, 9, 9, 11, 10, -1, -1, -1, -1, -1, -1, -1]]

/-- Rows 32 to 63 of the `triTable` literal. -/
def triTableChunk1 : List (List ℤ) :=
  [[9, 5, 4, -1, -1, -1, -1, -1, -1, -1, -1, -1, -1, -1, -1, -1],
   [9, 5, 4, 0, 8, 3, -1, -1, -1, -1, -1, -1, -1, -1, -1, -1],
   [0, 5, 4, 1, 5, 0, -1, -1, -1, -1, -1, -1, -1, -1, -1, -1],
   [8, 5, 4, 8, 3, 5, 3, 1, 5, -1, -1, -1, -1, -1, -1, -1],
   [1, 2, 10, 9, 5, 4, -1, -1, -1, -1, -1, -1, -1, -1, -1, -1],
   [3, 0, 8, 1, 2, 10, 4, 9, 5, -1, -1, -1, -1, -1, -1, -1],
   [5, 2, 10, 5, 4, 2, 4, 0, 2, -1, -1, -1, -1, -1, -1, -1],
   [2, 10, 5, 3, 2, 5, 3, 5, 4, 3, 4, 8, -1, -1, -1, -1],
   [9, 5, 4, 2, 3, 11, -1, -1, -1, -1, -1, -1, -1, -1, -1, -1],
   [0, 11, 2, 0, 8, 11, 4, 9, 5, -1, -1, -1, -1, -1, -1, -1],
   [0, 5, 4, 0, 1, 5, 2, 3, 11, -1, -1, -1, -1, -1, -1, -1],
   [2, 1, 5, 2, 5, 8, 2, 8, 11, 4, 8, 5, -1, -1, -1, -1],
   [10, 3, 11, 10, 1, 3, 9, 5, 4, -1, -1, -1, -1, -1, -1, -1],
   [4, 9, 5, 0, 8, 1, 8, 10, 1, 8, 11, 10, -1, -1, -1, -1],
   [5, 4, 0, 5, 0, 11, 5, 11, 10, 11, 0, 3, -1, -1, -1, -1],
   [5, 4, 8, 5, 8, 10, 10, 8, 11, -1, -1, -1, -1, -1, -1, -1],
   [9, 7, 8, 5, 7, 9, -1, -1, -1, -1, -1, -1, -1, -1, -1, -1],
   [9, 3, 0, 9, 5, 3, 5, 7, 3, -1, -1, -1, -1, -1, -1, -1],
   [0, 7, 8, 0, 1, 7, 1, 5, 7, -1, -1, -1, -1, -1, -1, -1],
   [1, 5, 3, 3, 5, 7, -1, -1, -1, -1, -1, -1, -1, -1, -1, -1],
   [9, 7, 8, 9, 5, 7, 10, 1, 2, -1, -1, -1, -1, -1, -1, -1],
   [10, 1, 2, 9, 5, 0, 5, 3, 0, 5, 7, 3, -1, -1, -1, -1],
   [8, 0, 2, 8, 2, 5, 8, 5, 7, 10, 5, 2, -1, -1, -1, -1],
   [2, 10, 5, 2, 5, 3, 3, 5, 7, -1, -1, -1, -1, -1, -1, -1],
   [7, 9, 5, 7, 8, 9, 3, 11, 2, -1, -1, -1, -1, -1, -1, -1],
   [9, 5, 7, 9, 7, 2, 9, 2, 0, 2, 7, 11, -1, -1, -1, -1],
   [2, 3, 11, 0, 1, 8, 1, 7, 8, 1, 5, 7, -1, -1, -1, -1],
   [11, 2, 1, 11, 1, 7, 7, 1, 5, -1, -1, -1, -1, -1, -1, -1],
   [9, 5, 8, 8, 5, 7, 10, 1, 3, 10, 3, 11, -1, -1, -1, -1],
   [5, 7, 0, 5, 0, 9, 7, 11, 0, 1, 0, 10, 11, 10, 0, -1],
   [11, 10, 0, 11, 0, 3, 10, 5, 0, 8, 0, 7, 5, 7, 0, -1],
   [11, 10, 5, 7, 11, 5, -1, -1, -1, -1, -1, -1, -1, -1, -1, -1]]

/-- Rows 64 to 95 of the `triTable` literal. -/
def triTableChunk2 : List (List ℤ) :=
  [[10, 6, 5, -1, -1, -1, -1, -1, -1, -1, -1, -1, -1, -1, -1, -1],
   [0, 8, 3, 5, 10, 6, -1, -1, -1, -1, -1, -1, -1, -1, -1, -1],
   [9, 0, 1, 5, 10, 6, -1, -1, -1, -1, -1, -1, -1, -1, -1, -1],
   [1, 8, 3, 1, 9, 8, 5, 10, 6, -1, -1, -1, -1, -1, -1, -1],
   [1, 6, 5, 2, 6, 1, -1, -1, -1, -1, -1, -1, -1, -1, -1, -1],
   [1, 6, 5, 1, 2, 6, 3, 0, 8, -1, -1, -1, -1, -1, -1, -1],
   [9, 6, 5, 9, 0, 6, 0, 2, 6, -1, -1, -1, -1, -1, -1, -1],
   [5, 9, 8, 5, 8, 2, 5, 2, 6, 3, 2, 8, -1, -1, -1, -1],
   [2, 3, 11, 10, 6, 5, -1, -1, -1, -1, -1, -1, -1, -1, -1, -1],
   [11, 0, 8, 11, 2, 0, 10, 6, 5, -1, -1, -1, -1, -1, -1, -1],
   [0, 1, 9, 2, 3, 11, 5, 10, 6, -1, -1, -1, -1, -1, -1, -1],
   [5, 10, 6, 1, 9, 2, 9, 11, 2, 9, 8, 11, -1, -1, -1, -1],
   [6, 3, 11, 6, 5, 3, 5, 1, 3, -1, -1, -1, -1, -1, -1, -1],
   [0, 8, 11, 0, 11, 5, 0, 5, 1, 5, 11, 6, -1, -1, -1, -1],
   [3, 11, 6, 0, 3, 6, 0, 6, 5, 0, 5, 9, -1, -1, -1, -1],
   [6, 5, 9, 6, 9, 11, 11, 9, 8, -1, -1, -1, -1, -1, -1, -1],
   [5, 10, 6, 4, 7, 8, -1, -1, -1, -1, -1, -1, -1, -1, -1, -1],
   [4, 3, 0, 4, 7, 3, 6, 5, 10, -1, -1, -1, -1, -1, -1, -1],
   [1, 9, 0, 5, 10, 6, 8, 4, 7, -1, -1, -1, -1, -1, -1, -1],
   [10, 6, 5, 1, 9, 7, 1, 7, 3, 7, 9, 4, -1, -1, -1, -1],
   [6, 1, 2, 6, 5, 1, 4, 7, 8, -1, -1, -1, -1, -1, -1, -1],
   [1, 2, 5, 5, 2, 6, 3, 0, 4, 3, 4, 7, -1, -1, -1, -1],
   [8, 4, 7, 9, 0, 5, 0, 6, 5, 0, 2, 6, -1, -1, -1, -1],
   [7, 3, 9, 7, 9, 4, 3, 2, 9, 5, 9, 6, 2, 6, 9, -1],
   [3, 11, 2, 7, 8, 4, 10, 6, 5, -1, -1, -1, -1, -1, -1, -1],
   [5, 10, 6, 4, 7, 2, 4, 2, 0, 2, 7, 11, -1, -1, -1, -1],
   [0, 1, 9, 4, 7, 8, 2, 3, 11, 5, 10, 6, -1, -1, -1, -1],
   [9, 2, 1, 9, 11, 2, 9, 4, 11, 7, 11, 4, 5, 10, 6, -1],
   [8, 4, 7, 3, 11, 5, 3, 5, 1, 5, 11, 6, -1, -1, -1, -1],
   [5, 1, 11, 5, 11, 6, 1, 0, 11, 7, 11, 4, 0, 4, 11, -1],
   [0, 5, 9, 0, 6, 5, 0, 3, 6, 11, 6, 3, 8, 4, 7, -1],
   [6, 5, 9, 6, 9, 11, 4, 7, 9, 7, 11, 9, -1, -1, -1, -1]]

/-- Rows 96 to 127 of the `triTable` literal. -/
def triTableChunk3 : List (List ℤ) :=
  [[10, 4, 9, 6, 4, 10, -1, -1, -1, -1, -1, -1, -1, -1, -1, -1],
   [4, 10, 6, 4, 9, 10, 0, 8, 3, -1, -1, -1, -1, -1, -1, -1],
   [10, 0, 1, 10, 6, 0, 6, 4, 0, -1, -1, -1, -1, -1, -1, -1],
   [8, 3, 1, 8, 1, 6, 8, 6, 4, 6, 1, 10, -1, -1, -1, -1],
   [1, 4, 9, 1, 2, 4, 2, 6, 4, -1, -1, -1, -1, -1, -1, -1],
   [3, 0, 8, 1, 2, 9, 2, 4, 9, 2, 6, 4, -1, -1, -1, -1],
   [0, 2, 4, 4, 2, 6, -1, -1, -1, -1, -1, -1, -1, -1, -1, -1],
   [8, 3, 2, 8, 2, 4, 4, 2, 6, -1, -1, -1, -1, -1, -1, -1],
   [10, 4, 9, 10, 6, 4, 11, 2, 3, -1, -1, -1, -1, -1, -1, -1],
   [0, 8, 2, 2, 8, 11, 4, 9, 10, 4, 10, 6, -1, -1, -1, -1],
   [3, 11, 2, 0, 1, 6, 0, 6, 4, 6, 1, 10, -1, -1, -1, -1],
   [6, 4, 1, 6, 1, 10, 4, 8, 1, 2, 1, 11, 8, 11, 1, -1],
   [9, 6, 4, 9, 3, 6, 9, 1, 3, 11, 6, 3, -1, -1, -1, -1],
   [8, 11, 1, 8, 1, 0, 11, 6, 1, 9, 1, 4, 6, 4, 1, -1],
   [3, 11, 6, 3, 6, 0, 0, 6, 4, -1, -1, -1, -1, -1, -1, -1],
   [6, 4, 8, 11, 6, 8, -1, -1, -1, -1, -1, -1, -1, -1, -1, -1],
   [7, 10, 6, 7, 8, 10, 8, 9, 10, -1, -1, -1, -1, -1, -1, -1],
   [0, 7, 3, 0, 10, 7, 0, 9, 10, 6, 7, 10, -1, -1, -1, -1],
   [10, 6, 7, 1, 10, 7, 1, 7, 8, 1, 8, 0, -1, -1, -1, -1],
   [10, 6, 7, 10, 7, 1, 1, 7, 3, -1, -1, -1, -1, -1, -1, -1],
   [1, 2, 6, 1, 6, 8, 1, 8, 9, 8, 6, 7, -1, -1, -1, -1],
   [2, 6, 9, 2, 9, 1, 6, 7, 9, 0, 9, 3, 7, 3, 9, -1],
   [7, 8, 0, 7, 0, 6, 6, 0, 2, -1, -1, -1, -1, -1, -1, -1],
   [7, 3, 2, 6, 7, 2, -1, -1, -1, -1, -1, -1, -1, -1, -1, -1],
   [2, 3, 11, 10, 6, 8, 10, 8, 9, 8, 6, 7, -1, -1, -1, -1],
   [2, 0, 7, 2, 7, 11, 0, 9, 7, 6, 7, 10, 9, 10, 7, -1],
   [1, 8, 0, 1, 7, 8, 1, 10, 7, 6, 7, 10, 2, 3, 11, -1],
   [11, 2, 1, 11, 1, 7, 10, 6, 1, 6, 7, 1, -1, -1, -1, -1],
   [8, 9, 6, 8, 6, 7, 9, 1, 6, 11, 6, 3, 1, 3, 6, -1],
   [0, 9, 1, 11, 6, 7, -1, -1, -1, -1, -1, -1, -1, -1, -1, -1],
   [7, 8, 0, 7, 0, 6, 3, 11, 0, 11, 6, 0, -1, -1, -1, -1],
   [7, 11, 6, -1, -1, -1, -1, -1, -1, -1, -1, -1, -1, -1, -1, -1]]

/-- Rows 128 to 159 of the `triTable` literal. -/
def triTableChunk4 : List (List ℤ) :=
  [[7, 6, 11, -1, -1, -1, -1, -1, -1, -1, -1, -1, -1, -1, -1, -1],
   [3, 0, 8, 11, 7, 6, -1, -1, -1, -1, -1, -1, -1, -1, -1, -1],
   [0, 1, 9, 11, 7, 6, -1, -1, -1, -1, -1, -1, -1, -1, -1, -1],
   [8, 1, 9, 8, 3, 1, 11, 7, 6, -1, -1, -1, -1, -1, -1, -1],
   [10, 1, 2, 6, 11, 7, -1, -1, -1, -1, -1, -1, -1, -1, -1, -1],
   [1, 2, 10, 3, 0, 8, 6, 11, 7, -1, -1, -1, -1, -1, -1, -1],
   [2, 9, 0, 2, 10, 9, 6, 11, 7, -1, -1, -1, -1, -1, -1, -1],
   [6, 11, 7, 2, 10, 3, 10, 8, 3, 10, 9, 8, -1, -1, -1, -1],
   [7, 2, 3, 6, 2, 7, -1, -1, -1, -1, -1, -1, -1, -1, -1, -1],
   [7, 0, 8, 7, 6, 0, 6, 2, 0, -1, -1, -1, -1, -1, -1, -1],
   [2, 7, 6, 2, 3, 7, 0, 1, 9, -1, -1, -1, -1, -1, -1, -1],
   [1, 6, 2, 1, 8, 6, 1, 9, 8, 8, 7, 6, -1, -1, -1, -1],
   [10, 7, 6, 10, 1, 7, 1, 3, 7, -1, -1, -1, -1, -1, -1, -1],
   [10, 7, 6, 1, 7, 10, 1, 8, 7, 1, 0, 8, -1, -1, -1, -1],
   [0, 3, 7, 0, 7, 10, 0, 10, 9, 6, 10, 7, -1, -1, -1, -1],
   [7, 6, 10, 7, 10, 8, 8, 10, 9, -1, -1, -1, -1, -1, -1, -1],
   [6, 8, 4, 11, 8, 6, -1, -1, -1, -1, -1, -1, -1, -1, -1, -1],
   [3, 6, 11, 3, 0, 6, 0, 4, 6, -1, -1, -1, -1, -1, -1, -1],
   [8, 6, 11, 8, 4, 6, 9, 0, 1, -1, -1, -1, -1, -1, -1, -1],
   [9, 4, 6, 9, 6, 3, 9, 3, 1, 11, 3, 6, -1, -1, -1, -1],
   [6, 8, 4, 6, 11, 8, 2, 10, 1, -1, -1, -1, -1, -1, -1, -1],
   [1, 2, 10, 3, 0, 11, 0, 6, 11, 0, 4, 6, -1, -1, -1, -1],
   [4, 11, 8, 4, 6, 11, 0, 2, 9, 2, 10, 9, -1, -1, -1, -1],
   [10, 9, 3, 10, 3, 2, 9, 4, 3, 11, 3, 6, 4, 6, 3, -1],
   [8, 2, 3, 8, 4, 2, 4, 6, 2, -1, -1, -1, -1, -1, -1, -1],
   [0, 4, 2, 4, 6, 2, -1, -1, -1, -1, -1, -1, -1, -1, -1, -1],
   [1, 9, 0, 2, 3, 4, 2, 4, 6, 4, 3, 8, -1, -1, -1, -1],
   [1, 9, 4, 1, 4, 2, 2, 4, 6, -1, -1, -1, -1, -1, -1, -1],
   [8, 1, 3, 8, 6, 1, 8, 4, 6, 6, 10, 1, -1, -1, -1, -1],
   [10, 1, 0, 10, 0, 6, 6, 0, 4, -1, -1, -1, -1, -1, -1, -1],
   [4, 6, 3, 4, 3, 8, 6, 10, 3, 0, 3, 9, 10, 9, 3, -1],
   [10, 9, 4, 6, 10, 4, -1, -1, -1, -1, -1, -1, -1, -1, -1, -1]]

/-- Rows 160 to 191 of the `triTable` literal. -/
def triTableChunk5 : List (List ℤ) :=
  [[4, 9, 5, 7, 6, 11, -1, -1, -1, -1, -1, -1, -1, -1, -1, -1],
   [0, 8, 3, 4, 9, 5, 11, 7, 6, -1, -1, -1, -1, -1, -1, -1],
   [5, 0, 1, 5, 4, 0, 7, 6, 11, -1, -1, -1, -1, -1, -1, -1],
   [11, 7, 6, 8, 3, 4, 3, 5, 4, 3, 1, 5, -1, -1, -1, -1],
   [9, 5, 4, 10, 1, 2, 7, 6, 11, -1, -1, -1, -1, -1, -1, -1],
   [6, 11, 7, 1, 2, 10, 0, 8, 3, 4, 9, 5, -1, -1, -1, -1],
   [7, 6, 11, 5, 4, 10, 4, 2, 10, 4, 0, 2, -1, -1, -1, -1],
   [3, 4, 8, 3, 5, 4, 3, 2, 5, 10, 5, 2, 11, 7, 6, -1],
   [7, 2, 3, 7, 6, 2, 5, 4, 9, -1, -1, -1, -1, -1, -1, -1],
   [9, 5, 4, 0, 8, 6, 0, 6, 2, 6, 8, 7, -1, -1, -1, -1],
   [3, 6, 2, 3, 7, 6, 1, 5, 0, 5, 4, 0, -1, -1, -1, -1],
   [6, 2, 8, 6, 8, 7, 2, 1, 8, 4, 8, 5, 1, 5, 8, -1],
   [9, 5, 4, 10, 1, 6, 1, 7, 6, 1, 3, 7, -1, -1, -1, -1],
   [1, 6, 10, 1, 7, 6, 1, 0, 7, 8, 7, 0, 9, 5, 4, -1],
   [4, 0, 10, 4, 10, 5, 0, 3, 10, 6, 10, 7, 3, 7, 10, -1],
   [7, 6, 10, 7, 10, 8, 5, 4, 10, 4, 8, 10, -1, -1, -1, -1],
   [6, 9, 5, 6, 11, 9, 11, 8, 9, -1, -1, -1, -1, -1, -1, -1],
   [3, 6, 11, 0, 6, 3, 0, 5, 6, 0, 9, 5, -1, -1, -1, -1],
   [0, 11, 8, 0, 5, 11, 0, 1, 5, 5, 6, 11, -1, -1, -1, -1],
   [6, 11, 3, 6, 3, 5, 5, 3, 1, -1, -1, -1, -1, -1, -1, -1],
   [1, 2, 10, 9, 5, 11, 9, 11, 8, 11, 5, 6, -1, -1, -1, -1],
   [0, 11, 3, 0, 6, 11, 0, 9, 6, 5, 6, 9, 1, 2, 10, -1],
   [11, 8, 5, 11, 5, 6, 8, 0, 5, 10, 5, 2, 0, 2, 5, -1],
   [6, 11, 3, 6, 3, 5, 2, 10, 3, 10, 5, 3, -1, -1, -1, -1],
   [5, 8, 9, 5, 2, 8, 5, 6, 2, 3, 8, 2, -1, -1, -1, -1],
   [9, 5, 6, 9, 6, 0, 0, 6, 2, -1, -1, -1, -1, -1, -1, -1],
   [1, 5, 8, 1, 8, 0, 5, 6, 8, 3, 8, 2, 6, 2, 8, -1],
   [1, 5, 6, 2, 1, 6, -1, -1, -1, -1, -1, -1, -1, -1, -1, -1],
   [1, 3, 6, 1, 6, 10, 3, 8, 6, 5, 6, 9, 8, 9, 6, -1],
   [10, 1, 0, 10, 0, 6, 9, 5, 0, 5, 6, 0, -1, -1, -1, -1],
   [0, 3, 8, 5, 6, 10, -1, -1, -1, -1, -1, -1, -1, -1, -1, -1],
   [10, 5, 6, -1, -1, -1, -1, -1, -1, -1, -1, -1, -1, -1, -1, -1]]

/-- Rows 192 to 223 of the `triTable` literal. -/
def triTableChunk6 : List (List ℤ) :=
  [[11, 5, 10, 7, 5, 11, -1, -1, -1, -1, -1, -1, -1, -1, -1, -1],
   [11, 5, 10, 11, 7, 5, 8, 3, 0, -1, -1, -1, -1, -1, -1, -1],
   [5, 11, 7, 5, 10, 11, 1, 9, 0, -1, -1, -1, -1, -1, -1, -1],
   [10, 7, 5, 10, 11, 7, 9, 8, 1, 8, 3, 1, -1, -1, -1, -1],
   [11, 1, 2, 11, 7, 1, 7, 5, 1, -1, -1, -1, -1, -1, -1, -1],
   [0, 8, 3, 1, 2, 7, 1, 7, 5, 7, 2, 11, -1, -1, -1, -1],
   [9, 7, 5, 9, 2, 7, 9, 0, 2, 2, 11, 7, -1, -1, -1, -1],
   [7, 5, 2, 7, 2, 11, 5, 9, 2, 3, 2, 8, 9, 8, 2, -1],
   [2, 5, 10, 2, 3, 5, 3, 7, 5, -1, -1, -1, -1, -1, -1, -1],
   [8, 2, 0, 8, 5, 2, 8, 7, 5, 10, 2, 5, -1, -1, -1, -1],
   [9, 0, 1, 5, 10, 3, 5, 3, 7, 3, 10, 2, -1, -1, -1, -1],
   [9, 8, 2, 9, 2, 1, 8, 7, 2, 10, 2, 5, 7, 5, 2, -1],
   [1, 3, 5, 3, 7, 5, -1, -1, -1, -1, -1, -1, -1, -1, -1, -1],
   [0, 8, 7, 0, 7, 1, 1, 7, 5, -1, -1, -1, -1, -1, -1, -1],
   [9, 0, 3, 9, 3, 5, 5, 3, 7, -1, -1, -1, -1, -1, -1, -1],
   [9, 8, 7, 5, 9, 7, -1, -1, -1, -1, -1, -1, -1, -1, -1, -1],
   [5, 8, 4, 5, 10, 8, 10, 11, 8, -1, -1, -1, -1, -1, -1, -1],
   [5, 0, 4, 5, 11, 0, 5, 10, 11, 11, 3, 0, -1, -1, -1, -1],
   [0, 1, 9, 8, 4, 10, 8, 10, 11, 10, 4, 5, -1, -1, -1, -1],
   [10, 11, 4, 10, 4, 5, 11, 3, 4, 9, 4, 1, 3, 1, 4, -1],
   [2, 5, 1, 2, 8, 5, 2, 11, 8, 4, 5, 8, -1, -1, -1, -1],
   [0, 4, 11, 0, 11, 3, 4, 5, 11, 2, 11, 1, 5, 1, 11, -1],
   [0, 2, 5, 0, 5, 9, 2, 11, 5, 4, 5, 8, 11, 8, 5, -1],
   [9, 4, 5, 2, 11, 3, -1, -1, -1, -1, -1, -1, -1, -1, -1, -1],
   [2, 5, 10, 3, 5, 2, 3, 4, 5, 3, 8, 4, -1, -1, -1, -1],
   [5, 10, 2, 5, 2, 4, 4, 2, 0, -1, -1, -1, -1, -1, -1, -1],
   [3, 10, 2, 3, 5, 10, 3, 8, 5, 4, 5, 8, 0, 1, 9, -1],
   [5, 10, 2, 5, 2, 4, 1, 9, 2, 9, 4, 2, -1, -1, -1, -1],
   [8, 4, 5, 8, 5, 3, 3, 5, 1, -1, -1, -1, -1, -1, -1, -1],
   [0, 4, 5, 1, 0, 5, -1, -1, -1, -1, -1, -1, -1, -1, -1, -1],
   [8, 4, 5, 8, 5, 3, 9, 0, 5, 0, 3, 5, -1, -1, -1, -1],
   [9, 4, 5, -1, -1, -1, -1, -1, -1, -1, -1, -1, -1, -1, -1, -1]]

/-- Rows 224 to 255 of the `triTable` literal. -/
def triTableChunk7 : List (List ℤ) :=
  [[4, 11, 7, 4, 9, 11, 9, 10, 11, -1, -1, -1, -1, -1, -1, -1],
   [0, 8, 3, 4, 9, 7, 9, 11, 7, 9, 10, 11, -1, -1, -1, -1],
   [1, 10, 11, 1, 11, 4, 1, 4, 0, 7, 4, 11, -1, -1, -1, -1],
   [3, 1, 4, 3, 4, 8, 1, 10, 4, 7, 4, 11, 10, 11, 4, -1],
   [4, 11, 7, 9, 11, 4, 9, 2, 11, 9, 1, 2, -1, -1, -1, -1],
   [9, 7, 4, 9, 11, 7, 9, 1, 11, 2, 11, 1, 0, 8, 3, -1],
   [11, 7, 4, 11, 4, 2, 2, 4, 0, -1, -1, -1, -1, -1, -1, -1],
   [11, 7, 4, 11, 4, 2, 8, 3, 4, 3, 2, 4, -1, -1, -1, -1],
   [2, 9, 10, 2, 7, 9, 2, 3, 7, 7, 4, 9, -1, -1, -1, -1],
   [9, 10, 7, 9, 7, 4, 10, 2, 7, 8, 7, 0, 2, 0, 7, -1],
   [3, 7, 10, 3, 10, 2, 7, 4, 10, 1, 10, 0, 4, 0, 10, -1],
   [1, 10, 2, 8, 7, 4, -1, -1, -1, -1, -1, -1, -1, -1, -1, -1],
   [4, 9, 1, 4, 1, 7, 7, 1, 3, -1, -1, -1, -1, -1, -1, -1],
   [4, 9, 1, 4, 1, 7, 0, 8, 1, 8, 7, 1, -1, -1, -1, -1],
   [4, 0, 3, 7, 4, 3, -1, -1, -1, -1, -1, -1, -1, -1, -1, -1],
   [4, 8, 7, -1, -1, -1, -1, -1, -1, -1, -1, -1, -1, -1, -1, -1],
   [9, 10, 8, 10, 11, 8, -1, -1, -1, -1, -1, -1, -1, -1, -1, -1],
   [3, 0, 9, 3, 9, 11, 11, 9, 10, -1, -1, -1, -1, -1, -1, -1],
   [0, 1, 10, 0, 10, 8, 8, 10, 11, -1, -1, -1, -1, -1, -1, -1],
   [3, 1, 10, 11, 3, 10, -1, -1, -1, -1, -1, -1, -1, -1, -1, -1],
   [1, 2, 11, 1, 11, 9, 9, 11, 8, -1, -1, -1, -1, -1, -1, -1],
   [3, 0, 9, 3, 9, 11, 1, 2, 9, 2, 11, 9, -1, -1, -1, -1],
   [0, 2, 11, 8, 0, 11, -1, -1, -1, -1, -1, -1, -1, -1, -1, -1],
   [3, 2, 11, -1, -1, -1, -1, -1, -1, -1, -1, -1, -1, -1, -1, -1],
   [2, 3, 8, 2, 8, 10, 10, 8, 9, -1, -1, -1, -1, -1, -1, -1],
   [9, 10, 2, 0, 9, 2, -1, -1, -1, -1, -1, -1, -1, -1, -1, -1],
   [2, 3, 8, 2, 8, 10, 0, 1, 8, 1, 10, 8, -1, -1, -1, -1],
   [1, 10, 2, -1, -1, -1, -1, -1, -1, -1, -1, -1, -1, -1, -1, -1],
   [1, 3, 8, 9, 1, 8, -1, -1, -1, -1, -1, -1, -1, -1, -1, -1],
   [0, 9, 1, -1, -1, -1, -1, -1, -1, -1, -1, -1, -1, -1, -1, -1],
   [0, 3, 8, -1, -1, -1, -1, -1, -1, -1, -1, -1, -1, -1, -1, -1],
   [-1, -1, -1, -1, -1, -1, -1, -1, -1, -1, -1, -1, -1, -1, -1, -1]]

/-- The 256×16 `triTable` of the source: config to edge-index triples,
terminated by the sentinel -1 (concatenation of the 8 row chunks). -/
def triTable : List (List ℤ) :=
  triTableChunk0 ++ triTableChunk1 ++ triTableChunk2 ++ triTableChunk3 ++ triTableChunk4 ++ triTableChunk5 ++ triTableChunk6 ++ triTableChunk7

/-- The `edges[12][2]` endpoint table of the source (also the hard-coded
endpoint pairs of the twelve interpolation lines). -/
def edgeEndpoints : ℕ → ℕ × ℕ
  | 0 => (0, 1)
  | 1 => (1, 2)
  | 2 => (2, 3)
  | 3 => (3, 0)
  | 4 => (4, 5)
  | 5 => (5, 6)
  | 6 => (6, 7)
  | 7 => (7, 4)
  | 8 => (0, 4)
  | 9 => (1, 5)
  | 10 => (2, 6)
  | 11 => (3, 7)
  | _ => (0, 0)

/-- The `edge_points[12]` array: interpolated when the edge's bit is set in
the mask `et`, otherwise left default-constructed at `(0,0,0)` exactly as the
C++ `Point3D edge_points[12]` declaration leaves it. -/
def edgePoint (et : ℕ) (vert : ℕ → Point) (vals : ℕ → ℚ) (k : ℕ) : Point :=
  if et.testBit k then
    interpolate_3d (vert (edgeEndpoints k).1) (vert (edgeEndpoints k).2)
      (vals (edgeEndpoints k).1) (vals (edgeEndpoints k).2)
  else ⟨0, 0, 0⟩

/-- Instrumented variant of `edgePoint`: `none` for an edge whose
interpolated point was never computed.  Used to state that triangle assembly
reads only computed edge points. -/
def edgePointOpt (et : ℕ) (vert : ℕ → Point) (vals : ℕ → ℚ) (k : ℕ) : Option Point :=
  if et.testBit k then
    some (interpolate_3d (vert (edgeEndpoints k).1) (vert (edgeEndpoints k).2)
      (vals (edgeEndpoints k).1) (vals (edgeEndpoints k).2))
  else none

/-- The triangle-assembly loop of `marching_cubes`: reads the row three
entries at a time, stopping at the `-1` sentinel. -/
def assembleC (ep : ℕ → Point) : List ℤ → List Triangle
  | a :: b :: c :: rest =>
    if a = -1 then []
    else ⟨ep a.toNat, ep b.toNat, ep c.toNat⟩ :: assembleC ep rest
  | _ => []

/-- Instrumented assembly loop over `Option` edge points: fails with `none`
  if it ever reads an edge point that was not computed. -/
def assembleCOpt (ep : ℕ → Option Point) : List ℤ → Option (List Triangle)
  | a :: b :: c :: rest =>
    if a = -1 then some []
    else
      match ep a.toNat, ep b.toNat, ep c.toNat, assembleCOpt ep rest with
      | some pa, some pb, some pc, some tl => some (⟨pa, pb, pc⟩ :: tl)
      | _, _, _, _ => none
  | _ => some []

/-- `marching_cubes` from the source: sample the 8 corners, build `config`,
return `[]` when `edgeTable[config] = 0`, otherwise interpolate the flagged
edges and assemble the triangles listed by `triTable[config]`. -/
def marching_cubes (s e : Point) (f : ℚ → ℚ → ℚ → ℚ) : List Triangle :=
  if edgeTable.getD (configOf (cubeValues s e f)) 0 = 0 then []
  else
    assembleC
      (edgePoint (edgeTable.getD (configOf (cubeValues s e f)) 0)
        (cubeVertex s e) (cubeValues s e f))
      (triTable.getD (configOf (cubeValues s e f)) [])

/-- `marching_cubes` with the instrumented edge-point array: returns `none`
iff the assembly loop would read an uncomputed edge point. -/
def marching_cubesOpt (s e : Point) (f : ℚ → ℚ → ℚ → ℚ) : Option (List Triangle) :=
  if edgeTable.getD (configOf (cubeValues s e f)) 0 = 0 then some []
  else
    assembleCOpt
      (edgePointOpt (edgeTable.getD (configOf (cubeValues s e f)) 0)
        (cubeVertex s e) (cubeValues s e f))
      (triTable.getD (configOf (cubeValues s e f)) [])

/-- The box midpoint `(mid_x, mid_y, mid_z)` of `surface_to_triangles`. -/
def midp (s e : Point) : Point :=
  ⟨(s.x + e.x) / 2, (s.y + e.y) / 2, (s.z + e.z) / 2⟩

/-- The eight octant boxes, in the slot order `sub_results[0] .. sub_results[7]`
of the source. -/
def octants (s e : Point) : List (Point × Point) :=
  [(s, midp s e),
   (⟨(midp s e).x, s.y, s.z⟩, ⟨e.x, (midp s e).y, (midp s e).z⟩),
   (⟨s.x, (midp s e).y, s.z⟩, ⟨(midp s e).x, e.y, (midp s e).z⟩),
   (⟨(midp s e).x, (midp s e).y, s.z⟩, ⟨e.x, e.y, (midp s e).z⟩),
   (⟨s.x, s.y, (midp s e).z⟩, ⟨(midp s e).x, (midp s e).y, e.z⟩),
   (⟨(midp s e).x, s.y, (midp s e).z⟩, ⟨e.x, (midp s e).y, e.z⟩),
   (⟨s.x, (midp s e).y, (midp s e).z⟩, ⟨(midp s e).x, e.y, e.z⟩),
   (midp s e, e)]

/-- `surface_to_triangles` from the source.  `fuel` bounds the recursion
depth (the C++ recursion has no such bound; fuel-independence is proved
separately).  `rngs` assigns a `rand()`-output stream to every octree node,
identified by its path of octant slot indices; the recursive call for slot
`i` extends the path by `i`.  The output is the in-order concatenation of
the eight `sub_results` slots. -/
def surface_to_triangles (f : ℚ → ℚ → ℚ → ℚ) (p : ℚ) (rngs : List ℕ → ℕ → ℕ) :
    ℕ → List ℕ → Point → Point → List Triangle
  | 0, _, _, _ => []
  | fuel + 1, path, s, e =>
    if e.x - s.x < p ∨ e.y - s.y < p ∨ e.z - s.z < p then
      marching_cubes s e f
    else if cube_contains_surface f s e (rngs path) = false then []
    else
      ((octants s e).enum.map (fun q =>
        surface_to_triangles f p rngs fuel (path ++ [q.1]) q.2.1 q.2.2)).flatten

/-- The vertex lines written by `draw_surface`: three `v` lines per triangle,
in input order, no deduplication. -/
def draw_surface_vertices (ts : List Triangle) : List Point :=
  ts.flatMap (fun t => [t.p1, t.p2, t.p3])

/-- The face lines written by `draw_surface`: for triangle `i` the code
computes `base = i * 6 + 1` and writes `f base base+1 base+2`. -/
def draw_surface_faces (ts : List Triangle) : List (ℕ × ℕ × ℕ) :=
  (List.range ts.length).map (fun i => (6 * i + 1, 6 * i + 2, 6 * i + 3))

/-- Chunk-structured well-formedness of a `triTable` row against an edge
mask: every edge index read by the assembly loop has its bit set. -/
def rowOk (et : ℕ) : List ℤ → Bool
  | a :: b :: c :: rest =>
    if a = -1 then true
    else et.testBit a.toNat && et.testBit b.toNat && et.testBit c.toNat && rowOk et rest
  | _ => true

/-- Concrete field x ↦ x, used as a concrete input in witnesses. -/
def fX : ℚ → ℚ → ℚ → ℚ := fun x _ _ => x

/-- Stream assignment that always returns 0 (every sample at the box minimum). -/
def rngA : List ℕ → ℕ → ℕ := fun _ _ => 0

/-- Stream assignment whose first sample is the box minimum and all later
samples the box maximum. -/
def rngB : List ℕ → ℕ → ℕ := fun _ n => if n < 3 then 0 else RAND_MAX

/-- Spec-side midpoint of two points. -/
def midpointSpec (p1 p2 : Point) : Point :=
  ⟨(p1.x + p2.x) / 2, (p1.y + p2.y) / 2, (p1.z + p2.z) / 2⟩

/-- The interpolation rule exactly as the specification words it: midpoint in
the degenerate case, otherwise the linear zero-crossing estimate. -/
def interpolateSpec (p1 p2 : Point) (f1 f2 : ℚ) : Point :=
  if |f2 - f1| < 1 / 1000000000 then midpointSpec p1 p2
  else
    ⟨p1.x + ((0 - f1) / (f2 - f1)) * (p2.x - p1.x),
     p1.y + ((0 - f1) / (f2 - f1)) * (p2.y - p1.y),
     p1.z + ((0 - f1) / (f2 - f1)) * (p2.z - p1.z)⟩

/-- Stream assignment pointwise equal to `rngA` but syntactically different. -/
def rngA2 : List ℕ → ℕ → ℕ := fun _ n => n * 0

lemma range8 : List.range 8 = [0, 1, 2, 3, 4, 5, 6, 7] := rfl

lemma configOf_eq_zero (vals : ℕ → ℚ) (h : ∀ k, k < 8 → 0 ≤ vals k) :
    configOf vals = 0 := by
  have hn : ∀ k, k < 8 → ¬ vals k < 0 := fun k hk => not_lt.2 (h k hk)
  unfold configOf
  rw [range8]
  simp only [List.foldl]
  unfold configStep
  rw [if_neg (hn 0 (by norm_num)), if_neg (hn 1 (by norm_num)), if_neg (hn 2 (by norm_num)),
    if_neg (hn 3 (by norm_num)), if_neg (hn 4 (by norm_num)), if_neg (hn 5 (by norm_num)),
    if_neg (hn 6 (by norm_num)), if_neg (hn 7 (by norm_num))]

lemma configOf_eq_255 (vals : ℕ → ℚ) (h : ∀ k, k < 8 → vals k < 0) :
    configOf vals = 255 := by
  unfold configOf
  rw [range8]
  simp only [List.foldl]
  unfold configStep
  rw [if_pos (h 0 (by norm_num)), if_pos (h 1 (by norm_num)), if_pos (h 2 (by norm_num)),
    if_pos (h 3 (by norm_num)), if_pos (h 4 (by norm_num)), if_pos (h 5 (by norm_num)),
    if_pos (h 6 (by norm_num)), if_pos (h 7 (by norm_num))]
  decide

lemma marching_cubes_of_nonneg (s e : Point) (f : ℚ → ℚ → ℚ → ℚ)
    (h : ∀ k, k < 8 → 0 ≤ cubeValues s e f k) : marching_cubes s e f = [] := by
  unfold marching_cubes
  rw [configOf_eq_zero _ h, if_pos (by decide)]

lemma marching_cubes_of_neg (s e : Point) (f : ℚ → ℚ → ℚ → ℚ)
    (h : ∀ k, k < 8 → cubeValues s e f k < 0) : marching_cubes s e f = [] := by
  unfold marching_cubes
  rw [configOf_eq_255 _ h, if_pos (by decide)]

lemma cubeVertex_bounds (s e : Point) (hx : s.x ≤ e.x) (hy : s.y ≤ e.y) (hz : s.z ≤ e.z) :
    ∀ k, k < 8 →
      s.x ≤ (cubeVertex s e k).x ∧ (cubeVertex s e k).x ≤ e.x ∧
      s.y ≤ (cubeVertex s e k).y ∧ (cubeVertex s e k).y ≤ e.y ∧
      s.z ≤ (cubeVertex s e k).z ∧ (cubeVertex s e k).z ≤ e.z := by
  intro k hk
  match k with
  | 0 => exact ⟨le_rfl, hx, le_rfl, hy, le_rfl, hz⟩
  | 1 => exact ⟨hx, le_rfl, le_rfl, hy, le_rfl, hz⟩
  | 2 => exact ⟨hx, le_rfl, hy, le_rfl, le_rfl, hz⟩
  | 3 => exact ⟨le_rfl, hx, hy, le_rfl, le_rfl, hz⟩
  | 4 => exact ⟨le_rfl, hx, le_rfl, hy, hz, le_rfl⟩
  | 5 => exact ⟨hx, le_rfl, le_rfl, hy, hz, le_rfl⟩
  | 6 => exact ⟨hx, le_rfl, hy, le_rfl, hz, le_rfl⟩
  | 7 => exact ⟨le_rfl, hx, hy, le_rfl, hz, le_rfl⟩
  | n + 8 => exact absurd hk (by omega)

/-- One-step unfolding of `surface_to_triangles` at positive fuel. -/
lemma stt_succ (f : ℚ → ℚ → ℚ → ℚ) (p : ℚ) (rngs : List ℕ → ℕ → ℕ)
    (fuel : ℕ) (path : List ℕ) (s e : Point) :
    surface_to_triangles f p rngs (fuel + 1) path s e =
      if e.x - s.x < p ∨ e.y - s.y < p ∨ e.z - s.z < p then
        marching_cubes s e f
      else if cube_contains_surface f s e (rngs path) = false then []
      else
        ((octants s e).enum.map (fun q =>
          surface_to_triangles f p rngs fuel (path ++ [q.1]) q.2.1 q.2.2)).flatten := rfl

/-- C4: `interpolate_3d` returns the componentwise midpoint when
`|f2 - f1| < 1e-9` and otherwise `p1 + t·(p2 - p1)` with `t = (0 - f1)/(f2 - f1)`;
in particular `interpolate_3d((0,0,0),(1,0,0),-1,1) = (0.5,0,0)` and
`interpolate_3d(p1,p2,5,5)` is the exact midpoint for every `p1, p2`. -/
theorem claim_C4 :
    (∀ p1 p2 f1 f2, interpolate_3d p1 p2 f1 f2 = interpolateSpec p1 p2 f1 f2) ∧
    interpolate_3d ⟨0, 0, 0⟩ ⟨1, 0, 0⟩ (-1) 1 = ⟨1/2, 0, 0⟩ ∧
    (∀ p1 p2, interpolate_3d p1 p2 5 5 = midpointSpec p1 p2) := by
  refine ⟨fun p1 p2 f1 f2 => rfl, ?_, fun p1 p2 => ?_⟩
  · unfold interpolate_3d
    rw [if_neg (by norm_num)]
    simp only [Point.mk.injEq]
    norm_num
  · unfold interpolate_3d midpointSpec
    rw [if_pos (by norm_num)]

/-- C10: for positive precision, a box with a non-positive extent on some
axis immediately satisfies the strict leaf test, so `surface_to_triangles`
performs no containment probe and no recursion and returns the single
`marching_cubes` extraction of the degenerate box, for any fuel and any
random streams. -/
theorem claim_C10 (f : ℚ → ℚ → ℚ → ℚ) (p : ℚ) (rngs : List ℕ → ℕ → ℕ)
    (fuel : ℕ) (path : List ℕ) (s e : Point) (hp : 0 < p)
    (hdeg : e.x ≤ s.x ∨ e.y ≤ s.y ∨ e.z ≤ s.z) :
    surface_to_triangles f p rngs (fuel + 1) path s e = marching_cubes s e f := by
  rw [stt_succ, if_pos]
  rcases hdeg with h | h | h
  · exact Or.inl (by linarith)
  · exact Or.inr (Or.inl (by linarith))
  · exact Or.inr (Or.inr (by linarith))

/-- C10 witness: a degenerate box (start.x > end.x) at precision 1. -/
theorem claim_C10_witness :
    surface_to_triangles fX 1 rngA 1 [] ⟨1, 0, 0⟩ ⟨0, 1, 1⟩ =
      marching_cubes ⟨1, 0, 0⟩ ⟨0, 1, 1⟩ fX :=
  claim_C10 fX 1 rngA 0 [] ⟨1, 0, 0⟩ ⟨0, 1, 1⟩ (by norm_num) (Or.inl (by norm_num))

/-- C3: `surface_to_triangles` delegates directly to `marching_cubes` exactly
when some axis extent is strictly below the precision: (i) under the strict
leaf test it returns the `marching_cubes` result; (ii) otherwise it proceeds
to the probe-and-subdivide branch; (iii) a box whose extents are all at least
the precision, with one axis extent exactly equal to it, fails the leaf test. -/
theorem claim_C3 :
    (∀ (f : ℚ → ℚ → ℚ → ℚ) (p : ℚ) (rngs : List ℕ → ℕ → ℕ) fuel path (s e : Point),
      (e.x - s.x < p ∨ e.y - s.y < p ∨ e.z - s.z < p) →
      surface_to_triangles f p rngs (fuel + 1) path s e = marching_cubes s e f) ∧
    (∀ (f : ℚ → ℚ → ℚ → ℚ) (p : ℚ) (rngs : List ℕ → ℕ → ℕ) fuel path (s e : Point),
      ¬(e.x - s.x < p ∨ e.y - s.y < p ∨ e.z - s.z < p) →
      surface_to_triangles f p rngs (fuel + 1) path s e =
        if cube_contains_surface f s e (rngs path) = false then []
        else ((octants s e).enum.map (fun q =>
          surface_to_triangles f p rngs fuel (path ++ [q.1]) q.2.1 q.2.2)).flatten) ∧
    (∀ (p : ℚ) (s e : Point), 0 < p → e.x - s.x = p → p ≤ e.y - s.y → p ≤ e.z - s.z →
      ¬(e.x - s.x < p ∨ e.y - s.y < p ∨ e.z - s.z < p)) := by
  refine ⟨fun f p rngs fuel path s e h => by rw [stt_succ, if_pos h],
          fun f p rngs fuel path s e h => by rw [stt_succ, if_neg h],
          fun p s e hp hx hy hz => ?_⟩
  push_neg
  exact ⟨by linarith, by linarith, by linarith⟩

/-- C3 witness: a leaf box delegates; the boundary box with one extent equal
to the precision fails the leaf test. -/
theorem claim_C3_witness :
    surface_to_triangles fX 2 rngA 1 [] ⟨0, 0, 0⟩ ⟨1, 1, 1⟩ =
      marching_cubes ⟨0, 0, 0⟩ ⟨1, 1, 1⟩ fX ∧
    ¬((Point.mk 1 1 1).x - (Point.mk 0 0 0).x < 1 ∨
      (Point.mk 1 1 1).y - (Point.mk 0 0 0).y < 1 ∨
      (Point.mk 1 1 1).z - (Point.mk 0 0 0).z < 1) :=
  ⟨claim_C3.1 fX 2 rngA 0 [] ⟨0, 0, 0⟩ ⟨1, 1, 1⟩ (Or.inl (by norm_num)),
   claim_C3.2.2 1 ⟨0, 0, 0⟩ ⟨1, 1, 1⟩ (by norm_num) (by norm_num) (by norm_num) (by norm_num)⟩

lemma configStep_lt (vals : ℕ → ℚ) {c i : ℕ} (hc : c < 256) (hi : i < 8) :
    configStep vals c i < 256 := by
  unfold configStep
  split
  · have h256 : (256 : ℕ) = 2 ^ 8 := by norm_num
    rw [h256]
    exact Nat.or_lt_two_pow (h256 ▸ hc)
      (by rw [Nat.one_shiftLeft]; exact Nat.pow_lt_pow_right (by norm_num) hi)
  · exact hc

lemma configOf_lt (vals : ℕ → ℚ) : configOf vals < 256 := by
  unfold configOf
  rw [range8]
  simp only [List.foldl]
  exact configStep_lt vals (configStep_lt vals (configStep_lt vals (configStep_lt vals
    (configStep_lt vals (configStep_lt vals (configStep_lt vals (configStep_lt vals
      (by norm_num) (by norm_num)) (by norm_num)) (by norm_num)) (by norm_num))
        (by norm_num)) (by norm_num)) (by norm_num)) (by norm_num)

lemma tablesRowOk : ∀ c ∈ List.range 256,
    rowOk (edgeTable.getD c 0) (triTable.getD c []) = true := by decide

lemma edgePointOpt_some (et : ℕ) (vert : ℕ → Point) (vals : ℕ → ℚ) (k : ℕ)
    (h : et.testBit k = true) :
    edgePointOpt et vert vals k = some (edgePoint et vert vals k) := by
  unfold edgePointOpt edgePoint
  rw [if_pos h, if_pos h]

lemma assembleOpt_eq_aux (et : ℕ) (vert : ℕ → Point) (vals : ℕ → ℚ) :
    ∀ (n : ℕ) (row : List ℤ), row.length ≤ n → rowOk et row = true →
      assembleCOpt (edgePointOpt et vert vals) row =
        some (assembleC (edgePoint et vert vals) row) := by
  intro n
  induction n with
  | zero =>
    intro row hlen _
    match row with
    | [] => rfl
    | a :: t => simp at hlen
  | succ n ih =>
    intro row hlen hok
    match row with
    | [] => rfl
    | [a] => rfl
    | [a, b] => rfl
    | a :: b :: c :: rest =>
      by_cases ha : a = -1
      · simp [assembleCOpt, assembleC, ha]
      · have hok' := hok
        unfold rowOk at hok'
        rw [if_neg ha] at hok'
        simp only [Bool.and_eq_true] at hok'
        obtain ⟨⟨⟨hba, hbb⟩, hbc⟩, hrest⟩ := hok'
        have hlen' : rest.length ≤ n := by
          simp only [List.length_cons] at hlen
          omega
        simp only [assembleCOpt, assembleC]
        rw [if_neg ha, if_neg ha, edgePointOpt_some et vert vals _ hba,
          edgePointOpt_some et vert vals _ hbb, edgePointOpt_some et vert vals _ hbc,
          ih rest hlen' hrest]

/-- C2: (i) every edge index listed by `triTable[config]` before the `-1`
sentinel has its bit set in `edgeTable[config]`; (ii) consequently the
triangle-assembly loop of `marching_cubes` reads only edge points that were
interpolated: the instrumented extractor, which fails on any read of an
uncomputed edge point, always succeeds and returns exactly the
`marching_cubes` output. -/
theorem claim_C2 :
    (∀ c, c < 256 → ∀ v ∈ (triTable.getD c []).takeWhile (fun t => t != -1),
      (edgeTable.getD c 0).testBit v.toNat = true) ∧
    (∀ (s e : Point) (f : ℚ → ℚ → ℚ → ℚ),
      marching_cubesOpt s e f = some (marching_cubes s e f)) := by
  constructor
  · decide
  · intro s e f
    unfold marching_cubes marching_cubesOpt
    by_cases h0 : edgeTable.getD (configOf (cubeValues s e f)) 0 = 0
    · rw [if_pos h0, if_pos h0]
    · rw [if_neg h0, if_neg h0]
      exact assembleOpt_eq_aux _ _ _ _ _ le_rfl
        (tablesRowOk _ (List.mem_range.mpr (configOf_lt _)))

/-- C2 witness: config 1 lists edge 0 whose bit is set in `edgeTable[1] = 0x109`,
and the instrumented extractor agrees with `marching_cubes` on a concrete cell. -/
theorem claim_C2_witness :
    (edgeTable.getD 1 0).testBit (0 : ℤ).toNat = true ∧
    marching_cubesOpt ⟨0, 0, 0⟩ ⟨1, 1, 1⟩ fX = some (marching_cubes ⟨0, 0, 0⟩ ⟨1, 1, 1⟩ fX) :=
  ⟨claim_C2.1 1 (by norm_num) 0 (by decide), claim_C2.2 ⟨0, 0, 0⟩ ⟨1, 1, 1⟩ fX⟩

/-- C9 (evidence for the export bug): on a two-triangle input `draw_surface`
emits six vertex lines (three per triangle), but its face loop computes
`base = i*6 + 1`, so the second face line references vertex indices 7, 8, 9 —
indices past the six emitted vertices and not the second triangle's own
most-recently-emitted vertices 4, 5, 6 that the specification describes. -/
theorem claim_C9 :
    (draw_surface_vertices
      [⟨⟨0, 0, 0⟩, ⟨1, 0, 0⟩, ⟨0, 1, 0⟩⟩, ⟨⟨0, 0, 1⟩, ⟨1, 0, 1⟩, ⟨0, 1, 1⟩⟩]).length = 6 ∧
    draw_surface_faces
      [⟨⟨0, 0, 0⟩, ⟨1, 0, 0⟩, ⟨0, 1, 0⟩⟩, ⟨⟨0, 0, 1⟩, ⟨1, 0, 1⟩, ⟨0, 1, 1⟩⟩] =
      [(1, 2, 3), (7, 8, 9)] :=
  ⟨rfl, rfl⟩

lemma containsLoop_iff (f : ℚ → ℚ → ℚ → ℚ) :
    ∀ (l : List Point) (hp hn : Bool), ¬(hp = true ∧ hn = true) →
      (containsLoop f hp hn l = true ↔
        ((hp = true ∨ ∃ q ∈ l, 0 ≤ f q.x q.y q.z) ∧
         (hn = true ∨ ∃ q ∈ l, f q.x q.y q.z < 0))) := by
  intro l
  induction l with
  | nil =>
    intro hp hn hcon
    simp only [containsLoop]
    constructor
    · intro h
      exact absurd h (by simp)
    · rintro ⟨h1, h2⟩
      simp only [List.not_mem_nil, false_and, exists_false, exists_const, or_false] at h1 h2
      exact absurd ⟨h1, h2⟩ hcon
  | cons q rest ih =>
    intro hp hn hcon
    simp only [containsLoop]
    by_cases hv : 0 ≤ f q.x q.y q.z
    · rw [if_pos hv, if_pos hv]
      simp only [Bool.true_and]
      by_cases hhn : hn = true
      · rw [if_pos hhn]
        exact iff_of_true rfl
          ⟨Or.inr ⟨q, List.mem_cons_self q rest, hv⟩, Or.inl hhn⟩
      · rw [if_neg hhn, ih true hn (fun hc => hhn hc.2)]
        constructor
        · rintro ⟨-, h2⟩
          refine ⟨Or.inr ⟨q, List.mem_cons_self q rest, hv⟩, ?_⟩
          rcases h2 with h2 | ⟨w, hw, hneg⟩
          · exact Or.inl h2
          · exact Or.inr ⟨w, List.mem_cons_of_mem q hw, hneg⟩
        · rintro ⟨-, h2⟩
          refine ⟨Or.inl rfl, ?_⟩
          rcases h2 with h2 | ⟨w, hw, hneg⟩
          · exact Or.inl h2
          · rcases List.mem_cons.mp hw with hwq | hw2
            · subst hwq
              exact absurd hneg (not_lt.2 hv)
            · exact Or.inr ⟨w, hw2, hneg⟩
    · rw [if_neg hv, if_neg hv]
      simp only [Bool.and_true]
      by_cases hhp : hp = true
      · rw [if_pos hhp]
        exact iff_of_true rfl
          ⟨Or.inl hhp, Or.inr ⟨q, List.mem_cons_self q rest, not_le.mp hv⟩⟩
      · rw [if_neg hhp, ih hp true (fun hc => hhp hc.1)]
        constructor
        · rintro ⟨h1, -⟩
          refine ⟨?_, Or.inr ⟨q, List.mem_cons_self q rest, not_le.mp hv⟩⟩
          rcases h1 with h1 | ⟨w, hw, hpos⟩
          · exact Or.inl h1
          · exact Or.inr ⟨w, List.mem_cons_of_mem q hw, hpos⟩
        · rintro ⟨h1, -⟩
          refine ⟨?_, Or.inl rfl⟩
          rcases h1 with h1 | ⟨w, hw, hpos⟩
          · exact Or.inl h1
          · rcases List.mem_cons.mp hw with hwq | hw2
            · subst hwq
              exact absurd hpos hv
            · exact Or.inr ⟨w, hw2, hpos⟩

lemma cube_contains_surface_iff (f : ℚ → ℚ → ℚ → ℚ) (s e : Point) (rng : ℕ → ℕ) :
    cube_contains_surface f s e rng = true ↔
      ((∃ i, i < 10000 ∧
          0 ≤ f (samplePoint rng s e i).x (samplePoint rng s e i).y (samplePoint rng s e i).z) ∧
       (∃ i, i < 10000 ∧
          f (samplePoint rng s e i).x (samplePoint rng s e i).y (samplePoint rng s e i).z < 0)) := by
  unfold cube_contains_surface
  rw [containsLoop_iff f _ false false (by simp)]
  constructor
  · rintro ⟨h1, h2⟩
    constructor
    · rcases h1 with h1 | ⟨w, hw, hpos⟩
      · exact absurd h1 (by simp)
      · obtain ⟨i, hi, rfl⟩ := List.mem_map.mp hw
        exact ⟨i, List.mem_range.mp hi, hpos⟩
    · rcases h2 with h2 | ⟨w, hw, hneg⟩
      · exact absurd h2 (by simp)
      · obtain ⟨i, hi, rfl⟩ := List.mem_map.mp hw
        exact ⟨i, List.mem_range.mp hi, hneg⟩
  · rintro ⟨⟨i, hi, hpos⟩, ⟨j, hj, hneg⟩⟩
    exact ⟨Or.inr ⟨samplePoint rng s e i,
             List.mem_map.mpr ⟨i, List.mem_range.mpr hi, rfl⟩, hpos⟩,
           Or.inr ⟨samplePoint rng s e j,
             List.mem_map.mpr ⟨j, List.mem_range.mpr hj, rfl⟩, hneg⟩⟩

lemma scaled_bounds (lo hi : ℚ) (r : ℕ) (hr : r ≤ RAND_MAX) (hle : lo ≤ hi) :
    lo ≤ lo + (r : ℚ) / ((RAND_MAX : ℚ) / (hi - lo)) ∧
    lo + (r : ℚ) / ((RAND_MAX : ℚ) / (hi - lo)) ≤ hi := by
  have hRM : (0 : ℚ) < (RAND_MAX : ℚ) := by norm_num [RAND_MAX]
  rcases eq_or_lt_of_le hle with heq | hlt
  · rw [← heq, sub_self, div_zero, div_zero, add_zero]
    exact ⟨le_rfl, le_rfl⟩
  · have hd : (0 : ℚ) < hi - lo := by linarith
    have hkey : (r : ℚ) / ((RAND_MAX : ℚ) / (hi - lo)) =
        (r : ℚ) * (hi - lo) / (RAND_MAX : ℚ) := div_div_eq_mul_div _ _ _
    rw [hkey]
    constructor
    · have h0 : 0 ≤ (r : ℚ) * (hi - lo) / (RAND_MAX : ℚ) := by positivity
      linarith
    · have hr' : (r : ℚ) ≤ (RAND_MAX : ℚ) := by exact_mod_cast hr
      have h1 : (r : ℚ) * (hi - lo) ≤ (RAND_MAX : ℚ) * (hi - lo) :=
        mul_le_mul_of_nonneg_right hr' (le_of_lt hd)
      have h2 : (r : ℚ) * (hi - lo) / (RAND_MAX : ℚ) ≤
          (RAND_MAX : ℚ) * (hi - lo) / (RAND_MAX : ℚ) := by gcongr
      have h3 : (RAND_MAX : ℚ) * (hi - lo) / (RAND_MAX : ℚ) = hi - lo := by
        field_simp
      linarith

lemma samplePoint_bounds (rng : ℕ → ℕ) (s e : Point) (i : ℕ)
    (h : ∀ n, rng n ≤ RAND_MAX) (hx : s.x ≤ e.x) (hy : s.y ≤ e.y) (hz : s.z ≤ e.z) :
    s.x ≤ (samplePoint rng s e i).x ∧ (samplePoint rng s e i).x ≤ e.x ∧
    s.y ≤ (samplePoint rng s e i).y ∧ (samplePoint rng s e i).y ≤ e.y ∧
    s.z ≤ (samplePoint rng s e i).z ∧ (samplePoint rng s e i).z ≤ e.z := by
  have hbx := scaled_bounds s.x e.x (rng (3 * i)) (h _) hx
  have hby := scaled_bounds s.y e.y (rng (3 * i + 1)) (h _) hy
  have hbz := scaled_bounds s.z e.z (rng (3 * i + 2)) (h _) hz
  exact ⟨hbx.1, hbx.2, hby.1, hby.2, hbz.1, hbz.2⟩

/-- C5: `cube_contains_surface` draws exactly 10000 samples (sample `i`
scaling the three stream draws `3i, 3i+1, 3i+2` into the box's per-axis
ranges) and returns `true` iff among them some sample evaluates `≥ 0` and
some evaluates `< 0` — early exit cannot change this value and `false`
requires the whole budget to fail; moreover every sample lies inside the box
whenever the stream respects the `rand()` bound. -/
theorem claim_C5 :
    (∀ (f : ℚ → ℚ → ℚ → ℚ) (s e : Point) (rng : ℕ → ℕ),
      cube_contains_surface f s e rng = true ↔
        ((∃ i, i < 10000 ∧
            0 ≤ f (samplePoint rng s e i).x (samplePoint rng s e i).y (samplePoint rng s e i).z) ∧
         (∃ i, i < 10000 ∧
            f (samplePoint rng s e i).x (samplePoint rng s e i).y (samplePoint rng s e i).z < 0))) ∧
    (∀ (rng : ℕ → ℕ) (s e : Point) (i : ℕ), (∀ n, rng n ≤ RAND_MAX) →
      s.x ≤ e.x → s.y ≤ e.y → s.z ≤ e.z →
      s.x ≤ (samplePoint rng s e i).x ∧ (samplePoint rng s e i).x ≤ e.x ∧
      s.y ≤ (samplePoint rng s e i).y ∧ (samplePoint rng s e i).y ≤ e.y ∧
      s.z ≤ (samplePoint rng s e i).z ∧ (samplePoint rng s e i).z ≤ e.z) :=
  ⟨cube_contains_surface_iff,
   fun rng s e i h hx hy hz => samplePoint_bounds rng s e i h hx hy hz⟩

lemma rngB_le (pa : List ℕ) : ∀ n, rngB pa n ≤ RAND_MAX := by
  intro n
  unfold rngB
  split
  · exact Nat.zero_le _
  · exact le_rfl

/-- C5 witness: on the box [-1,1]³ with field x ↦ x, the stream `rngB` puts
sample 0 at the box minimum (field < 0) and sample 1 at the box maximum
(field ≥ 0), so the probe reports `true`; sample 0 lies inside the box. -/
theorem claim_C5_witness :
    cube_contains_surface fX ⟨-1, -1, -1⟩ ⟨1, 1, 1⟩ (rngB []) = true ∧
    (Point.mk (-1) (-1) (-1)).x ≤ (samplePoint (rngB []) ⟨-1, -1, -1⟩ ⟨1, 1, 1⟩ 0).x :=
  ⟨(claim_C5.1 fX ⟨-1, -1, -1⟩ ⟨1, 1, 1⟩ (rngB [])).mpr
    ⟨⟨1, by norm_num,
       by norm_num [samplePoint, get_random_point_3d, rngB, RAND_MAX, fX]⟩,
     ⟨0, by norm_num,
       by norm_num [samplePoint, get_random_point_3d, rngB, RAND_MAX, fX]⟩⟩,
   ((claim_C5.2 (rngB []) ⟨-1, -1, -1⟩ ⟨1, 1, 1⟩ 0 (rngB_le [])
      (by norm_num) (by norm_num) (by norm_num)).1)⟩

/-- C1: for a valid box and positive precision, a field that is non-negative
everywhere on the box (resp. negative everywhere) makes `polygonize` return
the empty triangle list, for every fuel and every `rand()` stream
assignment: at a leaf the corner configuration is 0 (resp. 255) whose
`edgeTable` entry is zero, and at a non-leaf the probe never sees both signs
so the subtree is pruned. -/
theorem claim_C1 (f : ℚ → ℚ → ℚ → ℚ) (p : ℚ) (rngs : List ℕ → ℕ → ℕ)
    (fuel : ℕ) (path : List ℕ) (s e : Point)
    (hp : 0 < p) (hx : s.x < e.x) (hy : s.y < e.y) (hz : s.z < e.z)
    (hrng : ∀ pa n, rngs pa n ≤ RAND_MAX) :
    ((∀ x y z : ℚ, s.x ≤ x → x ≤ e.x → s.y ≤ y → y ≤ e.y → s.z ≤ z → z ≤ e.z →
        0 ≤ f x y z) →
      surface_to_triangles f p rngs fuel path s e = []) ∧
    ((∀ x y z : ℚ, s.x ≤ x → x ≤ e.x → s.y ≤ y → y ≤ e.y → s.z ≤ z → z ≤ e.z →
        f x y z < 0) →
      surface_to_triangles f p rngs fuel path s e = []) := by
  constructor
  · intro hf
    match fuel with
    | 0 => rfl
    | fuel + 1 =>
      rw [stt_succ]
      split
      · apply marching_cubes_of_nonneg
        intro k hk
        obtain ⟨b1, b2, b3, b4, b5, b6⟩ := cubeVertex_bounds s e hx.le hy.le hz.le k hk
        exact hf _ _ _ b1 b2 b3 b4 b5 b6
      · have hfalse : cube_contains_surface f s e (rngs path) = false := by
          rcases Bool.eq_false_or_eq_true (cube_contains_surface f s e (rngs path)) with h | h
          · exfalso
            rcases (cube_contains_surface_iff f s e (rngs path)).mp h with ⟨-, ⟨i, hi, hneg⟩⟩
            obtain ⟨b1, b2, b3, b4, b5, b6⟩ :=
              samplePoint_bounds (rngs path) s e i (hrng path) hx.le hy.le hz.le
            exact absurd (hf _ _ _ b1 b2 b3 b4 b5 b6) (not_le.2 hneg)
          · exact h
        rw [if_pos hfalse]
  · intro hf
    match fuel with
    | 0 => rfl
    | fuel + 1 =>
      rw [stt_succ]
      split
      · apply marching_cubes_of_neg
        intro k hk
        obtain ⟨b1, b2, b3, b4, b5, b6⟩ := cubeVertex_bounds s e hx.le hy.le hz.le k hk
        exact hf _ _ _ b1 b2 b3 b4 b5 b6
      · have hfalse : cube_contains_surface f s e (rngs path) = false := by
          rcases Bool.eq_false_or_eq_true (cube_contains_surface f s e (rngs path)) with h | h
          · exfalso
            rcases (cube_contains_surface_iff f s e (rngs path)).mp h with ⟨⟨i, hi, hpos⟩, -⟩
            obtain ⟨b1, b2, b3, b4, b5, b6⟩ :=
              samplePoint_bounds (rngs path) s e i (hrng path) hx.le hy.le hz.le
            exact absurd hpos (not_le.2 (hf _ _ _ b1 b2 b3 b4 b5 b6))
          · exact h
        rw [if_pos hfalse]

/-- C1 witness: constant fields +1 and -1 on the unit box give empty output
(non-leaf fuel so the probe branch is also exercised at fuel 2). -/
theorem claim_C1_witness :
    surface_to_triangles (fun _ _ _ => (1 : ℚ)) 2 rngA 2 [] ⟨0, 0, 0⟩ ⟨1, 1, 1⟩ = [] ∧
    surface_to_triangles (fun _ _ _ => (-1 : ℚ)) 2 rngA 2 [] ⟨0, 0, 0⟩ ⟨1, 1, 1⟩ = [] :=
  ⟨(claim_C1 (fun _ _ _ => 1) 2 rngA 2 [] ⟨0, 0, 0⟩ ⟨1, 1, 1⟩ (by norm_num)
      ((by norm_num : (0 : ℚ) < 1)) ((by norm_num : (0 : ℚ) < 1)) ((by norm_num : (0 : ℚ) < 1))
      (fun pa n => Nat.zero_le _)).1
    (fun x y z _ _ _ _ _ _ => by norm_num),
   (claim_C1 (fun _ _ _ => -1) 2 rngA 2 [] ⟨0, 0, 0⟩ ⟨1, 1, 1⟩ (by norm_num)
      ((by norm_num : (0 : ℚ) < 1)) ((by norm_num : (0 : ℚ) < 1)) ((by norm_num : (0 : ℚ) < 1))
      (fun pa n => Nat.zero_le _)).2
    (fun x y z _ _ _ _ _ _ => by norm_num)⟩

lemma probeB_true : cube_contains_surface fX ⟨-1, -1, -1⟩ ⟨1, 1, 1⟩ (rngB []) = true :=
  (cube_contains_surface_iff fX ⟨-1, -1, -1⟩ ⟨1, 1, 1⟩ (rngB [])).mpr
    ⟨⟨1, by norm_num,
       by norm_num [samplePoint, get_random_point_3d, rngB, RAND_MAX, fX]⟩,
     ⟨0, by norm_num,
       by norm_num [samplePoint, get_random_point_3d, rngB, RAND_MAX, fX]⟩⟩

lemma sampleA_eq (i : ℕ) : samplePoint (rngA []) ⟨-1, -1, -1⟩ ⟨1, 1, 1⟩ i = ⟨-1, -1, -1⟩ := by
  unfold samplePoint get_random_point_3d rngA
  simp only [Point.mk.injEq]
  norm_num

lemma probeA_false : cube_contains_surface fX ⟨-1, -1, -1⟩ ⟨1, 1, 1⟩ (rngA []) = false := by
  rcases Bool.eq_false_or_eq_true (cube_contains_surface fX ⟨-1, -1, -1⟩ ⟨1, 1, 1⟩ (rngA [])) with h | h
  · exfalso
    rcases (cube_contains_surface_iff fX ⟨-1, -1, -1⟩ ⟨1, 1, 1⟩ (rngA [])).mp h with
      ⟨⟨i, hi, hpos⟩, -⟩
    rw [sampleA_eq] at hpos
    simp only [fX] at hpos
    norm_num at hpos
  · exact h

/-- C6: at a non-leaf box whose probe reports `true`, `surface_to_triangles`
returns exactly the concatenation, in the fixed slot order 0..7, of the
recursive results on the eight octants sharing the box midpoint. -/
theorem claim_C6 (f : ℚ → ℚ → ℚ → ℚ) (p : ℚ) (rngs : List ℕ → ℕ → ℕ)
    (fuel : ℕ) (path : List ℕ) (s e : Point)
    (hleaf : ¬(e.x - s.x < p ∨ e.y - s.y < p ∨ e.z - s.z < p))
    (hprobe : cube_contains_surface f s e (rngs path) = true) :
    surface_to_triangles f p rngs (fuel + 1) path s e =
      surface_to_triangles f p rngs fuel (path ++ [0]) s (midp s e) ++
      surface_to_triangles f p rngs fuel (path ++ [1])
        ⟨(midp s e).x, s.y, s.z⟩ ⟨e.x, (midp s e).y, (midp s e).z⟩ ++
      surface_to_triangles f p rngs fuel (path ++ [2])
        ⟨s.x, (midp s e).y, s.z⟩ ⟨(midp s e).x, e.y, (midp s e).z⟩ ++
      surface_to_triangles f p rngs fuel (path ++ [3])
        ⟨(midp s e).x, (midp s e).y, s.z⟩ ⟨e.x, e.y, (midp s e).z⟩ ++
      surface_to_triangles f p rngs fuel (path ++ [4])
        ⟨s.x, s.y, (midp s e).z⟩ ⟨(midp s e).x, (midp s e).y, e.z⟩ ++
      surface_to_triangles f p rngs fuel (path ++ [5])
        ⟨(midp s e).x, s.y, (midp s e).z⟩ ⟨e.x, (midp s e).y, e.z⟩ ++
      surface_to_triangles f p rngs fuel (path ++ [6])
        ⟨s.x, (midp s e).y, (midp s e).z⟩ ⟨(midp s e).x, e.y, e.z⟩ ++
      surface_to_triangles f p rngs fuel (path ++ [7]) (midp s e) e := by
  rw [stt_succ, if_neg hleaf, if_neg (by simp [hprobe])]
  simp only [octants, List.enum, List.enumFrom, List.map, List.flatten]
  simp [List.append_assoc]

/-- C6 witness: the box [-1,1]³ at precision 3/2 is not a leaf and its probe
(under the `rngB` stream) reports `true`, so the output is the ordered
concatenation of the eight octant recursions. -/
theorem claim_C6_witness :
    surface_to_triangles fX (3/2) rngB 2 [] ⟨-1, -1, -1⟩ ⟨1, 1, 1⟩ =
      surface_to_triangles fX (3/2) rngB 1 ([] ++ [0]) ⟨-1, -1, -1⟩
        (midp ⟨-1, -1, -1⟩ ⟨1, 1, 1⟩) ++
      surface_to_triangles fX (3/2) rngB 1 ([] ++ [1])
        ⟨(midp ⟨-1, -1, -1⟩ ⟨1, 1, 1⟩).x, (Point.mk (-1) (-1) (-1)).y, (Point.mk (-1) (-1) (-1)).z⟩
        ⟨(Point.mk 1 1 1).x, (midp ⟨-1, -1, -1⟩ ⟨1, 1, 1⟩).y, (midp ⟨-1, -1, -1⟩ ⟨1, 1, 1⟩).z⟩ ++
      surface_to_triangles fX (3/2) rngB 1 ([] ++ [2])
        ⟨(Point.mk (-1) (-1) (-1)).x, (midp ⟨-1, -1, -1⟩ ⟨1, 1, 1⟩).y, (Point.mk (-1) (-1) (-1)).z⟩
        ⟨(midp ⟨-1, -1, -1⟩ ⟨1, 1, 1⟩).x, (Point.mk 1 1 1).y, (midp ⟨-1, -1, -1⟩ ⟨1, 1, 1⟩).z⟩ ++
      surface_to_triangles fX (3/2) rngB 1 ([] ++ [3])
        ⟨(midp ⟨-1, -1, -1⟩ ⟨1, 1, 1⟩).x, (midp ⟨-1, -1, -1⟩ ⟨1, 1, 1⟩).y, (Point.mk (-1) (-1) (-1)).z⟩
        ⟨(Point.mk 1 1 1).x, (Point.mk 1 1 1).y, (midp ⟨-1, -1, -1⟩ ⟨1, 1, 1⟩).z⟩ ++
      surface_to_triangles fX (3/2) rngB 1 ([] ++ [4])
        ⟨(Point.mk (-1) (-1) (-1)).x, (Point.mk (-1) (-1) (-1)).y, (midp ⟨-1, -1, -1⟩ ⟨1, 1, 1⟩).z⟩
        ⟨(midp ⟨-1, -1, -1⟩ ⟨1, 1, 1⟩).x, (midp ⟨-1, -1, -1⟩ ⟨1, 1, 1⟩).y, (Point.mk 1 1 1).z⟩ ++
      surface_to_triangles fX (3/2) rngB 1 ([] ++ [5])
        ⟨(midp ⟨-1, -1, -1⟩ ⟨1, 1, 1⟩).x, (Point.mk (-1) (-1) (-1)).y, (midp ⟨-1, -1, -1⟩ ⟨1, 1, 1⟩).z⟩
        ⟨(Point.mk 1 1 1).x, (midp ⟨-1, -1, -1⟩ ⟨1, 1, 1⟩).y, (Point.mk 1 1 1).z⟩ ++
      surface_to_triangles fX (3/2) rngB 1 ([] ++ [6])
        ⟨(Point.mk (-1) (-1) (-1)).x, (midp ⟨-1, -1, -1⟩ ⟨1, 1, 1⟩).y, (midp ⟨-1, -1, -1⟩ ⟨1, 1, 1⟩).z⟩
        ⟨(midp ⟨-1, -1, -1⟩ ⟨1, 1, 1⟩).x, (Point.mk 1 1 1).y, (Point.mk 1 1 1).z⟩ ++
      surface_to_triangles fX (3/2) rngB 1 ([] ++ [7]) (midp ⟨-1, -1, -1⟩ ⟨1, 1, 1⟩) ⟨1, 1, 1⟩ :=
  claim_C6 fX (3/2) rngB 1 [] ⟨-1, -1, -1⟩ ⟨1, 1, 1⟩ (by norm_num) probeB_true

lemma octants_ext (s e : Point) :
    ∀ pr ∈ octants s e,
      pr.2.x - pr.1.x = (e.x - s.x) / 2 ∧
      pr.2.y - pr.1.y = (e.y - s.y) / 2 ∧
      pr.2.z - pr.1.z = (e.z - s.z) / 2 := by
  intro pr hpr
  simp only [octants, List.mem_cons, List.not_mem_nil, or_false] at hpr
  rcases hpr with h | h | h | h | h | h | h | h <;>
    (subst h; unfold midp; dsimp only; refine ⟨by ring, by ring, by ring⟩)

lemma stt_stable (f : ℚ → ℚ → ℚ → ℚ) (p : ℚ) (rngs : List ℕ → ℕ → ℕ) (hp : 0 < p) :
    ∀ k fuel, k ≤ fuel → ∀ path (s e : Point),
      e.x - s.x < p * 2 ^ k → e.y - s.y < p * 2 ^ k → e.z - s.z < p * 2 ^ k →
      surface_to_triangles f p rngs (fuel + 1) path s e =
      surface_to_triangles f p rngs (k + 1) path s e := by
  intro k
  induction k with
  | zero =>
    intro fuel hk path s e hx hy hz
    simp only [pow_zero, mul_one] at hx hy hz
    rw [stt_succ, stt_succ, if_pos (Or.inl hx), if_pos (Or.inl hx)]
  | succ k ih =>
    intro fuel hk path s e hx hy hz
    obtain ⟨fuel', rfl⟩ : ∃ m, fuel = m + 1 := ⟨fuel - 1, by omega⟩
    rw [stt_succ, stt_succ]
    by_cases hleaf : e.x - s.x < p ∨ e.y - s.y < p ∨ e.z - s.z < p
    · rw [if_pos hleaf, if_pos hleaf]
    · rw [if_neg hleaf, if_neg hleaf]
      by_cases hprobe : cube_contains_surface f s e (rngs path) = false
      · rw [if_pos hprobe, if_pos hprobe]
      · rw [if_neg hprobe, if_neg hprobe]
        refine congrArg List.flatten (List.map_congr_left ?_)
        intro q hq
        have hq2 : q.2 ∈ octants s e := by
          have hm := List.mem_map_of_mem Prod.snd hq
          rwa [List.enum_map_snd] at hm
        obtain ⟨hex, hey, hez⟩ := octants_ext s e q.2 hq2
        have hpow : (2 : ℚ) ^ (k + 1) = 2 ^ k * 2 := pow_succ 2 k
        rw [hpow] at hx hy hz
        exact ih fuel' (Nat.succ_le_succ_iff.mp hk) (path ++ [q.1]) q.2.1 q.2.2
          (by rw [hex]; linarith) (by rw [hey]; linarith) (by rw [hez]; linarith)

/-- C7: each of the eight octants halves every axis extent (hence strictly
shrinks all three when the box is non-degenerate), and for every positive
precision and valid box the recursion terminates: beyond a finite depth `k`
(enough halvings to drop below the precision) the result no longer depends
on the available recursion depth. -/
theorem claim_C7 :
    (∀ (s e : Point), s.x < e.x → s.y < e.y → s.z < e.z →
      ∀ pr ∈ octants s e,
        (pr.2.x - pr.1.x = (e.x - s.x) / 2 ∧ pr.2.x - pr.1.x < e.x - s.x) ∧
        (pr.2.y - pr.1.y = (e.y - s.y) / 2 ∧ pr.2.y - pr.1.y < e.y - s.y) ∧
        (pr.2.z - pr.1.z = (e.z - s.z) / 2 ∧ pr.2.z - pr.1.z < e.z - s.z)) ∧
    (∀ (f : ℚ → ℚ → ℚ → ℚ) (p : ℚ) (rngs : List ℕ → ℕ → ℕ) (s e : Point),
      0 < p → s.x < e.x → s.y < e.y → s.z < e.z →
      ∃ k, ∀ fuel, k ≤ fuel → ∀ path,
        surface_to_triangles f p rngs (fuel + 1) path s e =
        surface_to_triangles f p rngs (k + 1) path s e) := by
  constructor
  · intro s e hx hy hz pr hpr
    obtain ⟨hex, hey, hez⟩ := octants_ext s e pr hpr
    exact ⟨⟨hex, by rw [hex]; linarith⟩, ⟨hey, by rw [hey]; linarith⟩,
           ⟨hez, by rw [hez]; linarith⟩⟩
  · intro f p rngs s e hp hx hy hz
    obtain ⟨k1, h1⟩ := pow_unbounded_of_one_lt ((e.x - s.x) / p) (by norm_num : (1 : ℚ) < 2)
    obtain ⟨k2, h2⟩ := pow_unbounded_of_one_lt ((e.y - s.y) / p) (by norm_num : (1 : ℚ) < 2)
    obtain ⟨k3, h3⟩ := pow_unbounded_of_one_lt ((e.z - s.z) / p) (by norm_num : (1 : ℚ) < 2)
    have hmono : ∀ a b : ℕ, a ≤ b → (2 : ℚ) ^ a ≤ 2 ^ b :=
      fun a b hab => pow_le_pow_right₀ (by norm_num) hab
    refine ⟨max k1 (max k2 k3), fun fuel hf path => ?_⟩
    have hb1 : e.x - s.x < p * 2 ^ max k1 (max k2 k3) := by
      have ha : e.x - s.x < 2 ^ k1 * p := (div_lt_iff₀ hp).mp h1
      have hb : (2 : ℚ) ^ k1 * p ≤ 2 ^ max k1 (max k2 k3) * p :=
        mul_le_mul_of_nonneg_right (hmono _ _ (le_max_left _ _)) hp.le
      have hc : p * 2 ^ max k1 (max k2 k3) = 2 ^ max k1 (max k2 k3) * p := mul_comm _ _
      linarith
    have hb2 : e.y - s.y < p * 2 ^ max k1 (max k2 k3) := by
      have ha : e.y - s.y < 2 ^ k2 * p := (div_lt_iff₀ hp).mp h2
      have hb : (2 : ℚ) ^ k2 * p ≤ 2 ^ max k1 (max k2 k3) * p :=
        mul_le_mul_of_nonneg_right
          (hmono _ _ (le_trans (le_max_left _ _) (le_max_right _ _))) hp.le
      have hc : p * 2 ^ max k1 (max k2 k3) = 2 ^ max k1 (max k2 k3) * p := mul_comm _ _
      linarith
    have hb3 : e.z - s.z < p * 2 ^ max k1 (max k2 k3) := by
      have ha : e.z - s.z < 2 ^ k3 * p := (div_lt_iff₀ hp).mp h3
      have hb : (2 : ℚ) ^ k3 * p ≤ 2 ^ max k1 (max k2 k3) * p :=
        mul_le_mul_of_nonneg_right
          (hmono _ _ (le_trans (le_max_right _ _) (le_max_right _ _))) hp.le
      have hc : p * 2 ^ max k1 (max k2 k3) = 2 ^ max k1 (max k2 k3) * p := mul_comm _ _
      linarith
    exact stt_stable f p rngs hp _ fuel hf path s e hb1 hb2 hb3

/-- C7 witness: the first octant of the unit box halves all extents, and the
recursion on the unit box at precision 1 stabilizes beyond some depth. -/
theorem claim_C7_witness :
    (((midp ⟨0, 0, 0⟩ ⟨1, 1, 1⟩).x - (Point.mk 0 0 0).x =
        ((Point.mk 1 1 1).x - (Point.mk 0 0 0).x) / 2 ∧
      (midp ⟨0, 0, 0⟩ ⟨1, 1, 1⟩).x - (Point.mk 0 0 0).x <
        (Point.mk 1 1 1).x - (Point.mk 0 0 0).x) ∧
     ((midp ⟨0, 0, 0⟩ ⟨1, 1, 1⟩).y - (Point.mk 0 0 0).y =
        ((Point.mk 1 1 1).y - (Point.mk 0 0 0).y) / 2 ∧
      (midp ⟨0, 0, 0⟩ ⟨1, 1, 1⟩).y - (Point.mk 0 0 0).y <
        (Point.mk 1 1 1).y - (Point.mk 0 0 0).y) ∧
     ((midp ⟨0, 0, 0⟩ ⟨1, 1, 1⟩).z - (Point.mk 0 0 0).z =
        ((Point.mk 1 1 1).z - (Point.mk 0 0 0).z) / 2 ∧
      (midp ⟨0, 0, 0⟩ ⟨1, 1, 1⟩).z - (Point.mk 0 0 0).z <
        (Point.mk 1 1 1).z - (Point.mk 0 0 0).z)) ∧
    (∃ k, ∀ fuel, k ≤ fuel → ∀ path,
      surface_to_triangles fX 1 rngA (fuel + 1) path ⟨0, 0, 0⟩ ⟨1, 1, 1⟩ =
      surface_to_triangles fX 1 rngA (k + 1) path ⟨0, 0, 0⟩ ⟨1, 1, 1⟩) :=
  ⟨claim_C7.1 ⟨0, 0, 0⟩ ⟨1, 1, 1⟩ (by norm_num) (by norm_num) (by norm_num)
    (⟨0, 0, 0⟩, midp ⟨0, 0, 0⟩ ⟨1, 1, 1⟩) (List.mem_cons_self _ _),
   claim_C7.2 fX 1 rngA ⟨0, 0, 0⟩ ⟨1, 1, 1⟩ (by norm_num) (by norm_num) (by norm_num)
    (by norm_num)⟩

lemma stt_one_leaf (f : ℚ → ℚ → ℚ → ℚ) (p : ℚ) (rngs : List ℕ → ℕ → ℕ)
    (path : List ℕ) (s e : Point)
    (h : e.x - s.x < p ∨ e.y - s.y < p ∨ e.z - s.z < p) :
    surface_to_triangles f p rngs 1 path s e = marching_cubes s e f := by
  have h0 := stt_succ f p rngs 0 path s e
  rw [if_pos h] at h0
  exact h0

lemma midp_cube : midp ⟨-1, -1, -1⟩ ⟨1, 1, 1⟩ = (⟨0, 0, 0⟩ : Point) := by
  unfold midp
  simp only [Point.mk.injEq]
  norm_num

lemma config_oct0 : configOf (cubeValues ⟨-1, -1, -1⟩ ⟨0, 0, 0⟩ fX) = 153 := by
  unfold configOf
  rw [range8]
  simp only [List.foldl]
  unfold configStep
  rw [if_pos (show cubeValues ⟨-1, -1, -1⟩ ⟨0, 0, 0⟩ fX 0 < 0 by
        norm_num [cubeValues, cubeVertex, fX]),
    if_neg (show ¬ cubeValues ⟨-1, -1, -1⟩ ⟨0, 0, 0⟩ fX 1 < 0 by
        norm_num [cubeValues, cubeVertex, fX]),
    if_neg (show ¬ cubeValues ⟨-1, -1, -1⟩ ⟨0, 0, 0⟩ fX 2 < 0 by
        norm_num [cubeValues, cubeVertex, fX]),
    if_pos (show cubeValues ⟨-1, -1, -1⟩ ⟨0, 0, 0⟩ fX 3 < 0 by
        norm_num [cubeValues, cubeVertex, fX]),
    if_pos (show cubeValues ⟨-1, -1, -1⟩ ⟨0, 0, 0⟩ fX 4 < 0 by
        norm_num [cubeValues, cubeVertex, fX]),
    if_neg (show ¬ cubeValues ⟨-1, -1, -1⟩ ⟨0, 0, 0⟩ fX 5 < 0 by
        norm_num [cubeValues, cubeVertex, fX]),
    if_neg (show ¬ cubeValues ⟨-1, -1, -1⟩ ⟨0, 0, 0⟩ fX 6 < 0 by
        norm_num [cubeValues, cubeVertex, fX]),
    if_pos (show cubeValues ⟨-1, -1, -1⟩ ⟨0, 0, 0⟩ fX 7 < 0 by
        norm_num [cubeValues, cubeVertex, fX])]
  decide

lemma mc_oct0_ne_nil : marching_cubes ⟨-1, -1, -1⟩ ⟨0, 0, 0⟩ fX ≠ [] := by
  unfold marching_cubes
  rw [config_oct0, if_neg (by decide : ¬(edgeTable.getD 153 0 = 0))]
  have hrow : triTable.getD 153 [] =
      [0, 4, 2, 4, 6, 2, -1, -1, -1, -1, -1, -1, -1, -1, -1, -1] := by decide
  rw [hrow]
  simp only [assembleC]
  rw [if_neg (by decide : ¬((0 : ℤ) = -1))]
  exact List.cons_ne_nil _ _

/-- C8 (amended): the polygonizer is a deterministic function of the field,
box, precision and the probe outcomes: if two `rand()`-stream assignments
make every containment probe answer the same, the produced triangle
sequences are identical for every fuel, path and box. -/
theorem claim_C8 (f : ℚ → ℚ → ℚ → ℚ) (p : ℚ) (rngs1 rngs2 : List ℕ → ℕ → ℕ)
    (h : ∀ pa (bs be : Point), cube_contains_surface f bs be (rngs1 pa) =
        cube_contains_surface f bs be (rngs2 pa)) :
    ∀ fuel path (s e : Point),
      surface_to_triangles f p rngs1 fuel path s e =
      surface_to_triangles f p rngs2 fuel path s e := by
  intro fuel
  induction fuel with
  | zero => intro path s e; rfl
  | succ fuel ih =>
    intro path s e
    rw [stt_succ, stt_succ]
    by_cases hleaf : e.x - s.x < p ∨ e.y - s.y < p ∨ e.z - s.z < p
    · rw [if_pos hleaf, if_pos hleaf]
    · rw [if_neg hleaf, if_neg hleaf, h path s e]
      by_cases hprobe : cube_contains_surface f s e (rngs2 path) = false
      · rw [if_pos hprobe, if_pos hprobe]
      · rw [if_neg hprobe, if_neg hprobe]
        refine congrArg List.flatten (List.map_congr_left ?_)
        intro q hq
        exact ih (path ++ [q.1]) q.2.1 q.2.2

/-- C8 witness: two syntactically different but pointwise-equal stream
assignments yield identical output. -/
theorem claim_C8_witness :
    surface_to_triangles fX 1 rngA 1 [] ⟨0, 0, 0⟩ ⟨1, 1, 1⟩ =
    surface_to_triangles fX 1 rngA2 1 [] ⟨0, 0, 0⟩ ⟨1, 1, 1⟩ :=
  claim_C8 fX 1 rngA rngA2
    (by
      intro pa bs be
      have hfun : rngA pa = rngA2 pa := by
        funext n
        simp [rngA, rngA2]
      rw [hfun])
    1 [] ⟨0, 0, 0⟩ ⟨1, 1, 1⟩

/-- C8 counterexample: with field, box and precision all fixed, two different
`rand()` streams (all-zero versus minimum-then-maximum) make `polygonize`
return different triangle sequences — the empty one and a non-empty one — so
the output is not reproducible across re-runs unless the probe's global
`rand()` stream itself is fixed, which the code provides no seed for. -/
theorem claim_C8_counterexample :
    surface_to_triangles fX (3/2) rngA 2 [] ⟨-1, -1, -1⟩ ⟨1, 1, 1⟩ = [] ∧
    surface_to_triangles fX (3/2) rngB 2 [] ⟨-1, -1, -1⟩ ⟨1, 1, 1⟩ ≠ [] := by
  constructor
  · rw [stt_succ, if_neg (by norm_num), if_pos probeA_false]
  · rw [stt_succ, if_neg (by norm_num), if_neg (by simp [probeB_true])]
    simp only [octants, List.enum, List.enumFrom, List.map, List.flatten]
    apply List.append_ne_nil_of_left_ne_nil
    rw [midp_cube]
    rw [stt_one_leaf fX (3/2) rngB ([] ++ [0]) ⟨-1, -1, -1⟩ ⟨0, 0, 0⟩
      (Or.inl (by norm_num))]
    exact mc_oct0_ne_nil

end MC
